import Mathlib

set_option maxRecDepth 8000

/-!
Shallow embedding of `src/processador_medico_unificado.py`.

Python strings are modelled as `List Char`; each Python function of the
normalization / segmentation / extraction pipeline becomes a Lean function
with the same name (module-private underscores dropped).  Regular-expression
searches are embedded as deterministic scanners that reproduce the leftmost
match and the greedy/backtracking order of the corresponding pattern.
-/

/-! ## Basic character and string utilities -/

/-- Whitespace as recognised by Python's `str.strip` / regex `\s`
(the common characters). -/
def isSpacePy (c : Char) : Bool :=
  c = ' ' || c = '\t' || c = '\n' || c = '\r' || c = '\x0b' || c = '\x0c'

/-- `str.lstrip()` -/
def pyLStrip (s : List Char) : List Char := s.dropWhile isSpacePy

/-- `str.rstrip()` -/
def pyRStrip (s : List Char) : List Char := (s.reverse.dropWhile isSpacePy).reverse

/-- `str.strip()` -/
def pyStrip (s : List Char) : List Char := pyRStrip (pyLStrip s)

/-- `str.lstrip(chars)` for an explicit character set. -/
def pyLStripChars (cs : List Char) (s : List Char) : List Char :=
  s.dropWhile (fun c => cs.contains c)

/-- `str.strip(chars)` for an explicit character set. -/
def pyStripChars (cs : List Char) (s : List Char) : List Char :=
  ((pyLStripChars cs s).reverse.dropWhile (fun c => cs.contains c)).reverse

/-- ASCII digit test (regex `\d`, restricted to ASCII as in the corpus). -/
def isDigitCh (c : Char) : Bool := '0' ≤ c && c ≤ '9'

/-- `str.lower()`, covering ASCII and the Latin-1 letters used in the
Portuguese labels of the source. -/
def toLowerPy (c : Char) : Char :=
  let v := c.toNat
  if 65 ≤ v && v ≤ 90 then Char.ofNat (v + 32)
  else if 192 ≤ v && v ≤ 222 && v != 215 then Char.ofNat (v + 32)
  else c

/-- `str.upper()` on the same character range. -/
def toUpperPy (c : Char) : Char :=
  let v := c.toNat
  if 97 ≤ v && v ≤ 122 then Char.ofNat (v - 32)
  else if 224 ≤ v && v ≤ 254 && v != 247 then Char.ofNat (v - 32)
  else c

/-- `_strip_accents` (NFD + drop combining marks) on a single character,
for the Latin letters that occur in the corpus. -/
def stripAccentChar (c : Char) : Char :=
  match c with
  | 'á' | 'à' | 'â' | 'ã' | 'ä' | 'å' => 'a'
  | 'Á' | 'À' | 'Â' | 'Ã' | 'Ä' | 'Å' => 'A'
  | 'ç' => 'c'
  | 'Ç' => 'C'
  | 'é' | 'è' | 'ê' | 'ë' => 'e'
  | 'É' | 'È' | 'Ê' | 'Ë' => 'E'
  | 'í' | 'ì' | 'î' | 'ï' => 'i'
  | 'Í' | 'Ì' | 'Î' | 'Ï' => 'I'
  | 'ñ' => 'n'
  | 'Ñ' => 'N'
  | 'ó' | 'ò' | 'ô' | 'õ' | 'ö' => 'o'
  | 'Ó' | 'Ò' | 'Ô' | 'Õ' | 'Ö' => 'O'
  | 'ú' | 'ù' | 'û' | 'ü' => 'u'
  | 'Ú' | 'Ù' | 'Û' | 'Ü' => 'U'
  | 'ý' | 'ÿ' => 'y'
  | 'Ý' => 'Y'
  | _ => c

/-- `_strip_accents` on a string. -/
def stripAccentsPy (s : List Char) : List Char := s.map stripAccentChar

/-- Letter test for the regex word class `\w` (ASCII plus the accented
letters of `stripAccentChar`'s table). -/
def isAlphaCh (c : Char) : Bool :=
  ('a' ≤ c && c ≤ 'z') || ('A' ≤ c && c ≤ 'Z') || stripAccentChar c != c

/-- Regex word character `\w` (letters, digits, underscore). -/
def isWordCh (c : Char) : Bool := isDigitCh c || isAlphaCh c || c = '_'

/-- Substring containment test (Python's `needle in haystack`). -/
def occursB (t : List Char) : List Char → Bool
  | [] => t.isPrefixOf []
  | c :: rest => t.isPrefixOf (c :: rest) || occursB t rest

/-- Numeric value of a digit string (Python `int`, inputs are digit-only). -/
def natOfDigits (s : List Char) : Nat :=
  s.foldl (fun a c => a * 10 + (c.toNat - 48)) 0


/-- Decimal digits of `n`, most significant first (fuel-driven so that the
kernel can evaluate it; `n + 1` units of fuel always suffice). -/
def natDigitsGo : Nat → Nat → List Char → List Char
  | 0, _, acc => acc
  | fuel + 1, n, acc =>
    if n < 10 then Char.ofNat (48 + n) :: acc
    else natDigitsGo fuel (n / 10) (Char.ofNat (48 + n % 10) :: acc)

def natDigits (n : Nat) : List Char := natDigitsGo (n + 1) n []

/-- Python's `f"{n:0wd}"`: decimal, zero-padded to width `w`. -/
def padNum (w n : Nat) : List Char :=
  List.replicate (w - (natDigits n).length) '0' ++ natDigits n

/-! ## `str.split` on a multi-character separator (Python semantics:
leftmost, non-overlapping) and its join inverse.

The scan keeps the current piece reversed in `acc`; an occurrence of the
separator is complete exactly when `acc` ends with it, and the earliest
completed occurrence is the leftmost one, so this reproduces Python's
leftmost non-overlapping `str.split`. -/

def pySplitGo (sep : List Char) : List Char → List Char → List (List Char)
  | [], acc => [acc.reverse]
  | c :: rest, acc =>
    if sep.reverse.isPrefixOf (c :: acc) then
      ((c :: acc).drop sep.length).reverse :: pySplitGo sep rest []
    else
      pySplitGo sep rest (c :: acc)

/-- `s.split(sep)` for a nonempty separator. -/
def pySplit (sep s : List Char) : List (List Char) := pySplitGo sep s []

/-- `sep.join(pieces)`. -/
def joinSep (sep : List Char) : List (List Char) → List Char
  | [] => []
  | [x] => x
  | x :: y :: ys => x ++ sep ++ joinSep sep (y :: ys)

/-- `s.count(sep)` for a nonempty `sep`: Python counts the same
non-overlapping leftmost occurrences that `split` separates, so
`s.count(sep) == len(s.split(sep)) - 1`. -/
def countOcc (sep s : List Char) : Nat := (pySplit sep s).length - 1

theorem pySplitGo_ne_nil (sep : List Char) (s : List Char) : ∀ acc,
    pySplitGo sep s acc ≠ [] := by
  induction s with
  | nil => intro acc; simp [pySplitGo]
  | cons c rest ih =>
    intro acc
    by_cases h : sep.reverse.isPrefixOf (c :: acc)
    · simp [pySplitGo, h]
    · simpa [pySplitGo, h] using ih (c :: acc)

theorem joinSep_cons_of_ne_nil (sep x : List Char) (l : List (List Char))
    (h : l ≠ []) : joinSep sep (x :: l) = x ++ sep ++ joinSep sep l := by
  cases l with
  | nil => exact absurd rfl h
  | cons y ys => rfl

/-- Splitting and rejoining is the identity: the split pieces reassemble,
with the separator reinserted, into the original string. -/
theorem joinSep_pySplitGo (sep : List Char) (s : List Char) : ∀ acc,
    joinSep sep (pySplitGo sep s acc) = acc.reverse ++ s := by
  induction s with
  | nil => intro acc; simp [pySplitGo, joinSep]
  | cons c rest ih =>
    intro acc
    by_cases h : sep.reverse.isPrefixOf (c :: acc)
    · obtain ⟨t, ht⟩ := List.isPrefixOf_iff_prefix.mp h
      have hdrop : (c :: acc).drop sep.length = t := by
        rw [← ht, show sep.length = sep.reverse.length from by simp]
        simp [List.drop_left]
      have hrev : ((c :: acc).drop sep.length).reverse ++ sep = (c :: acc).reverse := by
        rw [hdrop, ← ht]
        simp
      simp only [pySplitGo, if_pos h]
      rw [joinSep_cons_of_ne_nil sep _ _ (pySplitGo_ne_nil sep rest []),
        ih [], List.append_assoc, List.reverse_cons] at *
      rw [← List.append_assoc, hrev]
      simp
    · simp only [pySplitGo, if_neg h]
      rw [ih (c :: acc)]
      simp

theorem joinSep_pySplit (sep : List Char) (s : List Char) :
    joinSep sep (pySplit sep s) = s := by
  simpa using joinSep_pySplitGo sep s []

/-! ## Boilerplate normalizer (`normalizar_textos`, exact mode) -/

/-- `STRING1`: the boilerplate target text removed during normalization. -/
def STRING1 : String :=
  " FASE 2️⃣\n" ++
  "Documentos necessários: \n" ++
  "✅Carteira de identidade frente e verso: anexo\n" ++
  "✅Carteira CRM frente/verso: declaração anexo\n" ++
  "✅Diploma medicina: certificado anexo\n" ++
  "✅Certidão de Casamento (se casado): anexo\n" ++
  "✅Comprovante de endereço: anexo\n" ++
  "✅PIS / Carteira de trabalho : PIS 12964420094 carteira anexo\n" ++
  "✅ Certificado de residência médica OU declaraçao de residência médica EM CURSO\n" ++
  "✅ Certificado de especialidade/pós graduação: anexo \n" ++
  "✅Certificados de cursos diversos (ACLS, ATLS, PALS ou qualquer outro): anexo\n" ++
  "✅Currículo atualizado: anexo\n" ++
  "Esses documentos devem ser entregues até 20/05/2021. Podem ser enviados escaneados ou digitalizados para o email OU para meu WhatsApp.\n" ++
  "medicals.apoio@gmail.com\n" ++
  "Qualquer dúvida entre em contato comigo\n" ++
  "☎️ 027 99937-6146 "

/-- `data.replace(target, "")`: remove every occurrence of `t`, scanning left
to right and continuing after each removed occurrence (fuel-driven; one unit
of fuel per consumed character, so `s.length` always suffices). -/
def removeAllGo (t : List Char) : Nat → List Char → List Char
  | _, [] => []
  | 0, s => s
  | fuel + 1, c :: rest =>
    if t.isPrefixOf (c :: rest) then removeAllGo t fuel (rest.drop (t.length - 1))
    else c :: removeAllGo t fuel rest

def removeAll (t s : List Char) : List Char := removeAllGo t s.length s

/-- `re.sub(r"\n{3,}", "\n\n", data)`: every maximal run of three or more
newlines becomes exactly two; shorter runs are kept.  `run` counts the
newlines of the current (still unemitted) run. -/
def colapsarNlGo : Nat → List Char → List Char
  | run, [] => List.replicate (min run 2) '\n'
  | run, c :: rest =>
    if c = '\n' then colapsarNlGo (run + 1) rest
    else List.replicate (min run 2) '\n' ++ c :: colapsarNlGo 0 rest

def colapsarNl (s : List Char) : List Char := colapsarNlGo 0 s

/-- The text transformation performed by `normalizar_textos` with the
default arguments (`fuzzy=False`, `target=STRING1`): exact removal of the
boilerplate target followed by collapsing of newline runs. -/
def normalizar_conteudo (data : List Char) : List Char :=
  colapsarNl (removeAll STRING1.data data)

/-! ## Block segmenter -/

/-- `DELIMITADOR`: the fixed framing delimiter between dossier texts. -/
def DELIMITADOR : List Char := "---------------------------------\n\n".data

/-- `[b.strip() for b in conteudo.split(DELIMITADOR) if b.strip()]`
(line 745 of the source). -/
def segmentar_blocos (conteudo : List Char) : List (List Char) :=
  ((pySplit DELIMITADOR conteudo).map pyStrip).filter (fun b => !b.isEmpty)

/-! ## Idempotence infrastructure for the normalizer -/

/-- If the target does not occur in `s`, `removeAllGo` leaves `s` unchanged. -/
theorem removeAllGo_of_not_occurs (t : List Char) (fuel : Nat) : ∀ s,
    occursB t s = false → removeAllGo t fuel s = s := by
  induction fuel with
  | zero =>
    intro s h
    cases s with
    | nil => rfl
    | cons c rest => rfl
  | succ fuel ih =>
    intro s h
    cases s with
    | nil => rfl
    | cons c rest =>
      simp only [occursB, Bool.or_eq_false_iff] at h
      simp only [removeAllGo]
      rw [if_neg (by simp [h.1]), ih rest h.2]

theorem removeAll_of_not_occurs (t s : List Char) (h : occursB t s = false) :
    removeAll t s = s :=
  removeAllGo_of_not_occurs t s.length s h

/-- Newline-run well-formedness: every maximal newline run has length ≤ 2
(`run` counts the newlines of the current run). -/
def nlRunsOKGo : Nat → List Char → Bool
  | run, [] => decide (run ≤ 2)
  | run, c :: rest =>
    if c = '\n' then nlRunsOKGo (run + 1) rest
    else decide (run ≤ 2) && nlRunsOKGo 0 rest

theorem nlRunsOKGo_cons_nl (j : Nat) (t : List Char) :
    nlRunsOKGo j ('\n' :: t) = nlRunsOKGo (j + 1) t := by
  simp [nlRunsOKGo]

theorem nlRunsOKGo_cons_other (j : Nat) (c : Char) (t : List Char)
    (hc : ¬ c = '\n') :
    nlRunsOKGo j (c :: t) = (decide (j ≤ 2) && nlRunsOKGo 0 t) := by
  simp [nlRunsOKGo, hc]

theorem colapsarNlGo_cons_nl (run : Nat) (t : List Char) :
    colapsarNlGo run ('\n' :: t) = colapsarNlGo (run + 1) t := by
  simp [colapsarNlGo]

theorem colapsarNlGo_cons_other (run : Nat) (c : Char) (t : List Char)
    (hc : ¬ c = '\n') :
    colapsarNlGo run (c :: t) =
      List.replicate (min run 2) '\n' ++ c :: colapsarNlGo 0 t := by
  simp [colapsarNlGo, hc]

theorem nlRunsOKGo_replicate (k : Nat) : ∀ (j : Nat) (t : List Char),
    nlRunsOKGo j (List.replicate k '\n' ++ t) = nlRunsOKGo (j + k) t := by
  induction k with
  | zero => intro j t; simp
  | succ k ih =>
    intro j t
    simp only [List.replicate_succ, List.cons_append, nlRunsOKGo_cons_nl]
    rw [ih (j + 1) t]
    congr 1
    omega

theorem nlRunsOKGo_bound (t : List Char) : ∀ j,
    nlRunsOKGo j t = true → j ≤ 2 := by
  induction t with
  | nil => intro j h; simpa [nlRunsOKGo] using h
  | cons c rest ih =>
    intro j h
    by_cases hc : c = '\n'
    · subst hc
      rw [nlRunsOKGo_cons_nl] at h
      have := ih (j + 1) h
      omega
    · rw [nlRunsOKGo_cons_other j c rest hc] at h
      simp only [Bool.and_eq_true, decide_eq_true_eq] at h
      exact h.1

theorem nlRunsOKGo_colapsarNlGo (s : List Char) : ∀ run,
    nlRunsOKGo 0 (colapsarNlGo run s) = true := by
  induction s with
  | nil =>
    intro run
    simp only [colapsarNlGo]
    rw [show List.replicate (min run 2) '\n' =
      List.replicate (min run 2) '\n' ++ [] from by simp]
    rw [nlRunsOKGo_replicate]
    simp only [nlRunsOKGo, decide_eq_true_eq]
    omega
  | cons c rest ih =>
    intro run
    by_cases hc : c = '\n'
    · subst hc
      rw [colapsarNlGo_cons_nl]
      exact ih (run + 1)
    · rw [colapsarNlGo_cons_other run c rest hc]
      rw [nlRunsOKGo_replicate]
      rw [nlRunsOKGo_cons_other _ c _ hc]
      simp only [Bool.and_eq_true, decide_eq_true_eq]
      constructor
      · omega
      · exact ih 0

theorem colapsarNlGo_of_runsOK (s : List Char) : ∀ run, run ≤ 2 →
    nlRunsOKGo run s = true → colapsarNlGo run s = List.replicate run '\n' ++ s := by
  induction s with
  | nil =>
    intro run hrun _
    simp [colapsarNlGo, Nat.min_eq_left hrun]
  | cons c rest ih =>
    intro run hrun h
    by_cases hc : c = '\n'
    · subst hc
      rw [nlRunsOKGo_cons_nl] at h
      have hb : run + 1 ≤ 2 := nlRunsOKGo_bound rest (run + 1) h
      rw [colapsarNlGo_cons_nl]
      rw [ih (run + 1) hb h, List.replicate_succ']
      simp
    · rw [nlRunsOKGo_cons_other _ c _ hc] at h
      simp only [Bool.and_eq_true, decide_eq_true_eq] at h
      rw [colapsarNlGo_cons_other _ c _ hc]
      rw [ih 0 (by omega) h.2, Nat.min_eq_left hrun]
      simp

theorem colapsarNl_idem (s : List Char) :
    colapsarNl (colapsarNl s) = colapsarNl s := by
  unfold colapsarNl
  rw [colapsarNlGo_of_runsOK (colapsarNlGo 0 s) 0 (by omega)
    (nlRunsOKGo_colapsarNlGo s 0)]
  simp

/-! ## Claim C2: segmentation -/

/-- C2 (amended): for a corpus with exactly `k` delimiter occurrences, all of
them terminating non-empty (after trimming) record texts — i.e. the split
pieces before the last are trim-nonempty and the final piece is trim-empty —
segmentation yields exactly `k` blocks, the trims of those pieces in order,
and rejoining the split pieces with the delimiter reinserted reconstructs the
corpus exactly.  For a corpus with no delimiter occurrence, segmentation
yields the single block `pyStrip corpus` when that is non-empty, and no
block at all when the corpus is entirely whitespace. -/
theorem C2_segmentacao_completa :
    (∀ (conteudo : List Char) (k : Nat),
      countOcc DELIMITADOR conteudo = k →
      pyStrip ((pySplit DELIMITADOR conteudo).getLastD []) = [] →
      (∀ p ∈ (pySplit DELIMITADOR conteudo).dropLast, pyStrip p ≠ []) →
      segmentar_blocos conteudo =
        ((pySplit DELIMITADOR conteudo).dropLast).map pyStrip ∧
      (segmentar_blocos conteudo).length = k ∧
      joinSep DELIMITADOR (pySplit DELIMITADOR conteudo) = conteudo) ∧
    (∀ conteudo : List Char, countOcc DELIMITADOR conteudo = 0 →
      segmentar_blocos conteudo =
        if pyStrip conteudo = [] then [] else [pyStrip conteudo]) := by
  constructor
  · intro conteudo k hk hlast hmid
    have hne : pySplit DELIMITADOR conteudo ≠ [] := pySplitGo_ne_nil _ _ _
    rcases List.eq_nil_or_concat (pySplit DELIMITADOR conteudo) with hnil | hcc
    · exact absurd hnil hne
    · obtain ⟨L, a, hLa⟩ := hcc
      rw [List.concat_eq_append] at hLa
      have hdropLast : (pySplit DELIMITADOR conteudo).dropLast = L := by
        rw [hLa]; simp
      have hgetLast : (pySplit DELIMITADOR conteudo).getLastD [] = a := by
        rw [hLa]; simp
      rw [hgetLast] at hlast
      rw [hdropLast] at hmid ⊢
      have hseg : segmentar_blocos conteudo = L.map pyStrip := by
        unfold segmentar_blocos
        rw [hLa, List.map_append, List.filter_append]
        have h1 : (L.map pyStrip).filter (fun b => !b.isEmpty) = L.map pyStrip := by
          apply List.filter_eq_self.mpr
          intro b hb
          obtain ⟨p, hp, hpb⟩ := List.mem_map.mp hb
          have := hmid p hp
          rw [← hpb]
          simpa [List.isEmpty_iff] using this
        have h2 : ([a].map pyStrip).filter (fun b => !b.isEmpty) = [] := by
          simp [hlast]
        rw [h1, h2, List.append_nil]
      refine ⟨hseg, ?_, joinSep_pySplit _ conteudo⟩
      rw [hseg, List.length_map]
      have hlen : (pySplit DELIMITADOR conteudo).length = L.length + 1 := by
        rw [hLa]; simp
      unfold countOcc at hk
      omega
  · intro conteudo h0
    have hne : pySplit DELIMITADOR conteudo ≠ [] := pySplitGo_ne_nil _ _ _
    have hlen : (pySplit DELIMITADOR conteudo).length = 1 := by
      unfold countOcc at h0
      have : 0 < (pySplit DELIMITADOR conteudo).length :=
        List.length_pos.mpr hne
      omega
    obtain ⟨x, hx⟩ := List.length_eq_one.mp hlen
    have hjoin := joinSep_pySplit DELIMITADOR conteudo
    rw [hx] at hjoin
    have hxc : x = conteudo := hjoin
    unfold segmentar_blocos
    rw [hx, hxc]
    by_cases hput : pyStrip conteudo = []
    · simp [hput]
    · simp [hput, List.isEmpty_iff]

/-- C2, claim as stated, is false: the all-whitespace corpus `" "` contains
no delimiter occurrence, yet segmentation yields no block at all rather than
a single block containing the whole corpus. -/
theorem C2_counterexample :
    countOcc DELIMITADOR (" ".data) = 0 ∧ segmentar_blocos (" ".data) = [] := by
  constructor
  · decide
  · decide

/-- Witness: C2 applied to the delimiter-free corpus `"abc"`. -/
theorem C2_witness :
    countOcc DELIMITADOR ("abc".data) = 0 ∧
    segmentar_blocos ("abc".data) = [pyStrip "abc".data] := by
  have h := C2_segmentacao_completa.2 "abc".data (by decide)
  refine ⟨by decide, ?_⟩
  rw [h]
  decide

/-! ## Claim C3: idempotence of normalization -/

/-- C3 (amended): the normalization step is idempotent on every corpus whose
normalized output contains no further occurrence of the boilerplate target;
without that proviso idempotence can fail, because removing an occurrence of
the target can splice the surrounding text into a fresh occurrence. -/
theorem C3_normalizacao_idempotente (corpus : List Char)
    (h : occursB STRING1.data (normalizar_conteudo corpus) = false) :
    normalizar_conteudo (normalizar_conteudo corpus) = normalizar_conteudo corpus := by
  unfold normalizar_conteudo at h ⊢
  rw [removeAll_of_not_occurs _ _ h]
  exact colapsarNl_idem _

/-- A corpus on which normalization is not idempotent: the boilerplate target
embedded inside a split copy of itself.  The first pass removes the inner
copy, leaving the outer halves joined into one further copy of the target;
the second pass removes that as well. -/
def cexC3 : List Char := ' ' :: (STRING1.data ++ STRING1.data.tail)

/-- C3, claim as stated, is false: normalization is not idempotent on `cexC3`. -/
theorem C3_counterexample :
    normalizar_conteudo (normalizar_conteudo cexC3) ≠ normalizar_conteudo cexC3 := by
  decide

/-- Witness: C3 applied to the corpus `"abc"`. -/
theorem C3_witness :
    occursB STRING1.data (normalizar_conteudo "abc".data) = false ∧
    normalizar_conteudo (normalizar_conteudo "abc".data) = normalizar_conteudo "abc".data :=
  ⟨by decide, C3_normalizacao_idempotente "abc".data (by decide)⟩

/-! ## Placeholders (lines 54-62 of the source) -/

def PLACEHOLDER_CADASTRO : List Char := "CADASTRO nao detectado".data
def PLACEHOLDER_FORMACAO : List Char := "FORMACAO PROFISSIONAL nao detectada".data
def PLACEHOLDER_RECEBIMENTO : List Char := "RECEBIMENTO nao detectado".data
def PLACEHOLDER_CPF : List Char := "CPF nao detectado".data
def PLACEHOLDER_CNS : List Char := "CNS nao detectado".data
def PLACEHOLDER_MAE : List Char := "MAE nao detectada".data
def PLACEHOLDER_PAI : List Char := "PAI nao detectado".data
def PLACEHOLDER_DT_NASC : List Char := "DATA_NASCIMENTO nao detectada".data
def PLACEHOLDER_NOME : List Char := "NOME nao detectado".data

/-! ## Section splitter (`extrai_secao`) -/

/-- A pattern given as one character class per position; used to embed the
two anchor regexes (case-insensitive, accented or not). -/
def matchClasses : List (List Char) → List Char → Bool
  | [], _ => true
  | _ :: _, [] => false
  | cls :: ps, c :: rest => cls.contains c && matchClasses ps rest

def searchPatGo (pat : List (List Char)) : Nat → List Char → Option Nat
  | i, [] => if matchClasses pat [] then some i else none
  | i, c :: rest =>
    if matchClasses pat (c :: rest) then some i
    else searchPatGo pat (i + 1) rest

/-- `re.search`: index of the leftmost match of the class pattern. -/
def searchPat (pat : List (List Char)) (s : List Char) : Option Nat :=
  searchPatGo pat 0 s

/-- `FORMACAO_RE = re.compile(r"FORMA[ÇC][AÃ]O PROFISSIONAL", re.IGNORECASE)`. -/
def FORMACAO_PAT : List (List Char) :=
  [['F', 'f'], ['O', 'o'], ['R', 'r'], ['M', 'm'], ['A', 'a'],
   ['Ç', 'ç', 'C', 'c'], ['A', 'a', 'Ã', 'ã'], ['O', 'o'], [' '],
   ['P', 'p'], ['R', 'r'], ['O', 'o'], ['F', 'f'], ['I', 'i'], ['S', 's'],
   ['S', 's'], ['I', 'i'], ['O', 'o'], ['N', 'n'], ['A', 'a'], ['L', 'l']]

/-- `RECEBIMENTO_RE = re.compile(r"RECEBIMENTO", re.IGNORECASE)`. -/
def RECEBIMENTO_PAT : List (List Char) :=
  [['R', 'r'], ['E', 'e'], ['C', 'c'], ['E', 'e'], ['B', 'b'], ['I', 'i'],
   ['M', 'm'], ['E', 'e'], ['N', 'n'], ['T', 't'], ['O', 'o']]

structure Secoes where
  cadastro : List Char
  formacao : List Char
  recebimento : List Char
deriving DecidableEq

/-- `extrai_secao` (lines 413-447): split a block into the registration,
training and compensation sections around the two anchors. -/
def extrai_secao (bloco : List Char) : Secoes :=
  let parts : List Char × Option (List Char) × Option (List Char) :=
    match searchPat FORMACAO_PAT bloco, searchPat RECEBIMENTO_PAT bloco with
    | some f, some r =>
      if f < r then
        (pyStrip (bloco.take f), some (pyStrip ((bloco.drop f).take (r - f))),
         some (pyStrip (bloco.drop r)))
      else
        (pyStrip (bloco.take r), none, some (pyStrip (bloco.drop r)))
    | some f, none =>
      (pyStrip (bloco.take f), some (pyStrip (bloco.drop f)), none)
    | none, some r =>
      (pyStrip (bloco.take r), none, some (pyStrip (bloco.drop r)))
    | none, none => (pyStrip bloco, none, none)
  { cadastro :=
      if parts.1 = [] then
        (if pyStrip bloco = [] then PLACEHOLDER_CADASTRO else pyStrip bloco)
      else parts.1,
    formacao := parts.2.1.getD PLACEHOLDER_FORMACAO,
    recebimento := parts.2.2.getD PLACEHOLDER_RECEBIMENTO }

/-- The section splitter as described by the spec's four-row decision table
(§4.3), written from the spec's words for comparison with the
source-derived `extrai_secao`. -/
def extrai_secao_spec (bloco : List Char) : Secoes :=
  let fb : List Char → List Char := fun reg =>
    if reg = [] then
      (if pyStrip bloco = [] then PLACEHOLDER_CADASTRO else pyStrip bloco)
    else reg
  match searchPat FORMACAO_PAT bloco, searchPat RECEBIMENTO_PAT bloco with
  | some f, some r =>
    if f < r then
      { cadastro := fb (pyStrip (bloco.take f)),
        formacao := pyStrip ((bloco.drop f).take (r - f)),
        recebimento := pyStrip (bloco.drop r) }
    else
      { cadastro := fb (pyStrip (bloco.take r)),
        formacao := PLACEHOLDER_FORMACAO,
        recebimento := pyStrip (bloco.drop r) }
  | some f, none =>
      { cadastro := fb (pyStrip (bloco.take f)),
        formacao := pyStrip (bloco.drop f),
        recebimento := PLACEHOLDER_RECEBIMENTO }
  | none, some r =>
      { cadastro := fb (pyStrip (bloco.take r)),
        formacao := PLACEHOLDER_FORMACAO,
        recebimento := pyStrip (bloco.drop r) }
  | none, none =>
      { cadastro := fb (pyStrip bloco),
        formacao := PLACEHOLDER_FORMACAO,
        recebimento := PLACEHOLDER_RECEBIMENTO }

/-! ## Line splitting (`str.splitlines`, newline-terminated lines) -/

def splitLinesGo : List Char → List Char → List (List Char)
  | [], acc => [acc.reverse]
  | '\n' :: rest, acc =>
    acc.reverse :: (match rest with | [] => [] | _ :: _ => splitLinesGo rest [])
  | c :: rest, acc => splitLinesGo rest (c :: acc)

/-- `str.splitlines()` (newline separators; no trailing empty line). -/
def splitLines (s : List Char) : List (List Char) :=
  match s with
  | [] => []
  | _ :: _ => splitLinesGo s []

/-! ## Identity-number extractor (`_encontrar_cpf_em_bloco`) -/

/-- Character class of `CPF_CANDIDATO_RE = [\d.\-]{11,18}`. -/
def isCpfChar (c : Char) : Bool := isDigitCh c || c = '.' || c = '-'

/-- `CPF_CANDIDATO_RE.findall(linha)`: greedy, leftmost, non-overlapping
matches of `[\d.\-]{11,18}` (fuel-driven: one unit per consumed character). -/
def cpfFindallGo : Nat → List Char → List (List Char)
  | 0, _ => []
  | _, [] => []
  | fuel + 1, c :: rest =>
    if isCpfChar c then
      if 11 ≤ ((c :: rest).takeWhile isCpfChar).length then
        (c :: rest).take (min ((c :: rest).takeWhile isCpfChar).length 18) ::
          cpfFindallGo fuel
            ((c :: rest).drop (min ((c :: rest).takeWhile isCpfChar).length 18))
      else cpfFindallGo fuel ((c :: rest).drop ((c :: rest).takeWhile isCpfChar).length)
    else cpfFindallGo fuel rest

def cpfFindall (linha : List Char) : List (List Char) :=
  cpfFindallGo linha.length linha

/-- `_normalizar_cpf_fragmento` (lines 449-454). -/
def normalizar_cpf_fragmento (fragmento : List Char) : Option (List Char) :=
  if (fragmento.filter isDigitCh).length = 11 then
    some (fragmento.filter isDigitCh)
  else none

/-- `_extrair_cpf_de_linha` (lines 456-463). -/
def extrair_cpf_de_linha (linha : List Char) : List (List Char) :=
  (cpfFindall linha).filterMap normalizar_cpf_fragmento

/-- The per-line loop of `_encontrar_cpf_em_bloco` (lines 465-479). -/
def encontrarCpfLines : List (List Char) → Option (List Char)
  | [] => none
  | raw :: rest =>
    if (pyStrip raw).isEmpty then encontrarCpfLines rest
    else if !occursB ("cpf".data) ((pyStrip raw).map toLowerPy) then
      encontrarCpfLines rest
    else if occursB ("pix".data) ((pyStrip raw).map toLowerPy) then
      encontrarCpfLines rest
    else
      match extrair_cpf_de_linha (pyStrip raw) with
      | x :: _ => some x
      | [] => encontrarCpfLines rest

def encontrar_cpf_em_bloco (bloco : List Char) : Option (List Char) :=
  encontrarCpfLines (splitLines bloco)

/-! ## Health-card extractor (`_encontrar_cns_em_bloco`) -/

/-- `QUINZE_DIGITOS_RE.search`: the leftmost window of 15 contiguous digits. -/
def quinzeSearch : List Char → Option (List Char)
  | [] => none
  | c :: rest =>
    if ((c :: rest).take 15).length = 15 && ((c :: rest).take 15).all isDigitCh then
      some ((c :: rest).take 15)
    else quinzeSearch rest

/-- The per-line loop of `_encontrar_cns_em_bloco` (lines 481-502); the
Python window loop `for i in range(...)` returns unconditionally at `i = 0`,
i.e. the first 15-digit window of the digit-stripped line. -/
def encontrarCnsLines : List (List Char) → Option (List Char)
  | [] => none
  | raw :: rest =>
    if (pyStrip raw).isEmpty then encontrarCnsLines rest
    else if !occursB ("cns".data) ((pyStrip raw).map toLowerPy) then
      encontrarCnsLines rest
    else
      match quinzeSearch ((pyStrip raw).filter (fun c => c != ' ')) with
      | some w => some w
      | none =>
        if 15 ≤ ((pyStrip raw).filter isDigitCh).length then
          some (((pyStrip raw).filter isDigitCh).take 15)
        else encontrarCnsLines rest

def encontrar_cns_em_bloco (bloco : List Char) : Option (List Char) :=
  encontrarCnsLines (splitLines bloco)

/-! ## Label-value helpers and name extractors -/

/-- `line.split(":", 1)`: split at the first colon, when present. -/
def splitOnceColon : List Char → Option (List Char × List Char)
  | [] => none
  | c :: rest =>
    if c = ':' then some ([], rest)
    else (splitOnceColon rest).map (fun p => (c :: p.1, p.2))

/-- `_extrair_valor_pos_label` (lines 135-141): the trimmed text after the
first colon, or nothing when absent or empty. -/
def extrair_valor_pos_label (line : List Char) : Option (List Char) :=
  match splitOnceColon line with
  | none => none
  | some (_, after) =>
    if (pyStrip after).isEmpty then none else some (pyStrip after)

/-- The per-line loop of `_encontrar_nome_mae` (lines 504-513). -/
def encontrarNomeMaeLines : List (List Char) → Option (List Char)
  | [] => none
  | raw :: rest =>
    if (pyStrip raw).isEmpty then encontrarNomeMaeLines rest
    else if occursB ("nome da mae".data)
        (stripAccentsPy ((pyStrip raw).map toLowerPy)) then
      extrair_valor_pos_label (pyStrip raw)
    else encontrarNomeMaeLines rest

def encontrar_nome_mae (bloco : List Char) : Option (List Char) :=
  encontrarNomeMaeLines (splitLines bloco)

/-- The per-line loop of `_encontrar_nome_pai` (lines 515-524). -/
def encontrarNomePaiLines : List (List Char) → Option (List Char)
  | [] => none
  | raw :: rest =>
    if (pyStrip raw).isEmpty then encontrarNomePaiLines rest
    else if occursB ("nome do pai".data)
          (stripAccentsPy ((pyStrip raw).map toLowerPy)) ||
        occursB ("nome da pai".data)
          (stripAccentsPy ((pyStrip raw).map toLowerPy)) then
      extrair_valor_pos_label (pyStrip raw)
    else encontrarNomePaiLines rest

def encontrar_nome_pai (bloco : List Char) : Option (List Char) :=
  encontrarNomePaiLines (splitLines bloco)

/-- Position of the capture group of `re.search(r"nome\s+(.+)$", lowered)`:
the first position where `nome` is followed by whitespace and at least one
further character (the greedy `\s+` giving one character back to `.+` when
nothing follows the whitespace run). -/
def nomeFallbackFind : Nat → List Char → Option Nat
  | _, [] => none
  | i, c :: rest =>
    if ("nome".data).isPrefixOf (c :: rest) then
      if ((c :: rest).drop 4).takeWhile isSpacePy = [] then
        nomeFallbackFind (i + 1) rest
      else if (((c :: rest).drop 4).takeWhile isSpacePy).length <
          ((c :: rest).drop 4).length then
        some (i + 4 + (((c :: rest).drop 4).takeWhile isSpacePy).length)
      else if 2 ≤ (((c :: rest).drop 4).takeWhile isSpacePy).length then
        some (i + 4 + (((c :: rest).drop 4).takeWhile isSpacePy).length - 1)
      else nomeFallbackFind (i + 1) rest
    else nomeFallbackFind (i + 1) rest

/-- The regex fallback of `_encontrar_nome_profissional`: the capture start
is an index into the lowered *stripped* line but is applied to the raw
(unstripped) line, exactly as in the source (line 601). -/
def nomeProfFb (raw : List Char) : Option (List Char) :=
  match nomeFallbackFind 0 (stripAccentsPy ((pyStrip raw).map toLowerPy)) with
  | some j =>
    if (pyStrip (raw.drop j)).isEmpty then none else some (pyStrip (raw.drop j))
  | none => none

/-- The per-line loop of `_encontrar_nome_profissional` (lines 580-604). -/
def encontrarNomeProfLines : List (List Char) → Option (List Char)
  | [] => none
  | raw :: rest =>
    if (pyStrip raw).isEmpty then encontrarNomeProfLines rest
    else if !occursB ("nome".data)
        (stripAccentsPy ((pyStrip raw).map toLowerPy)) then
      encontrarNomeProfLines rest
    else if occursB ("mae".data)
          (stripAccentsPy ((pyStrip raw).map toLowerPy)) ||
        occursB ("pai".data)
          (stripAccentsPy ((pyStrip raw).map toLowerPy)) then
      encontrarNomeProfLines rest
    else
      match splitOnceColon (pyStrip raw) with
      | some (_, after) =>
        if !(pyStrip after).isEmpty then some (pyStrip after)
        else
          match nomeProfFb raw with
          | some cand => some cand
          | none => encontrarNomeProfLines rest
      | none =>
        match nomeProfFb raw with
        | some cand => some cand
        | none => encontrarNomeProfLines rest

def encontrar_nome_profissional (bloco : List Char) : Option (List Char) :=
  encontrarNomeProfLines (splitLines bloco)

/-! ## Birth-date extractor (`_encontrar_data_nascimento`) -/

/-- `_normalizar_data` (lines 143-152): century completion for two-digit
years and day/month range check, then ISO `YYYY-MM-DD`. -/
def normalizar_data (d m y : Nat) : Option (List Char) :=
  if 1 ≤ m ∧ m ≤ 12 ∧ 1 ≤ d ∧ d ≤ 31 then
    some (padNum 4 (if y < 100 then (if 30 ≤ y then 1900 + y else 2000 + y) else y)
      ++ '-' :: (padNum 2 m ++ '-' :: padNum 2 d))
  else none

/-- Exactly `n` leading digits, parsed, with the remaining suffix. -/
def takeDigitsN (n : Nat) (s : List Char) : Option (Nat × List Char) :=
  if ((s.take n).length = n) && (s.take n).all isDigitCh then
    some (natOfDigits (s.take n), s.drop n)
  else none

/-- Separator class of the date patterns: dash, slash or dot. -/
def isSepCh (c : Char) : Bool := c = '-' || c = '/' || c = '.'

/-- `\b` after the match: next character absent or not a word character. -/
def endBdry : List Char → Bool
  | [] => true
  | c :: _ => !isWordCh c

/-- `\b` before the match (the previous character, if any). -/
def bdryBefore : Option Char → Bool
  | none => true
  | some p => !isWordCh p

/-- Ordered attempts (regex greedy backtracking order). -/
def firstSome {α : Type} : List Nat → (Nat → Option α) → Option α
  | [], _ => none
  | n :: ns, f =>
    match f n with
    | some a => some a
    | none => firstSome ns f

/-- `DATA_REGEXES[0]`: day (1-2 digits), separator, month (1-2 digits),
separator, year (2-4 digits), all between word boundaries; at one position. -/
def rx1At (prev : Option Char) (suf : List Char) : Option (Nat × Nat × Nat) :=
  if !bdryBefore prev then none
  else firstSome [2, 1] (fun dl =>
    match takeDigitsN dl suf with
    | none => none
    | some (d, r1) =>
      match r1 with
      | [] => none
      | s1 :: r2 =>
        if !isSepCh s1 then none
        else firstSome [2, 1] (fun ml =>
          match takeDigitsN ml r2 with
          | none => none
          | some (m, r3) =>
            match r3 with
            | [] => none
            | s2 :: r4 =>
              if !isSepCh s2 then none
              else firstSome [4, 3, 2] (fun yl =>
                match takeDigitsN yl r4 with
                | none => none
                | some (y, r5) =>
                  if endBdry r5 then some (d, m, y) else none)))

/-- `DATA_REGEXES[1]`: day (1-2 digits), separator, month (1-2 digits),
then a 4-digit year, between word boundaries; at one position. -/
def rx2At (prev : Option Char) (suf : List Char) : Option (Nat × Nat × Nat) :=
  if !bdryBefore prev then none
  else firstSome [2, 1] (fun dl =>
    match takeDigitsN dl suf with
    | none => none
    | some (d, r1) =>
      match r1 with
      | [] => none
      | s1 :: r2 =>
        if !isSepCh s1 then none
        else firstSome [2, 1] (fun ml =>
          match takeDigitsN ml r2 with
          | none => none
          | some (m, r3) =>
            match takeDigitsN 4 r3 with
            | none => none
            | some (y, r4) => if endBdry r4 then some (d, m, y) else none))

/-- `DATA_REGEXES[2] = \b(\d{2})(\d{2})(\d{4})\b` at one position. -/
def rx3At (prev : Option Char) (suf : List Char) : Option (Nat × Nat × Nat) :=
  if !bdryBefore prev then none
  else
    match takeDigitsN 2 suf with
    | none => none
    | some (d, r1) =>
      match takeDigitsN 2 r1 with
      | none => none
      | some (m, r2) =>
        match takeDigitsN 4 r2 with
        | none => none
        | some (y, r3) => if endBdry r3 then some (d, m, y) else none

/-- `re.search` driver for the date patterns: leftmost position wins. -/
def searchDateGo (rx : Option Char → List Char → Option (Nat × Nat × Nat)) :
    Option Char → List Char → Option (Nat × Nat × Nat)
  | prev, [] => rx prev []
  | prev, c :: rest =>
    match rx prev (c :: rest) with
    | some g => some g
    | none => searchDateGo rx (some c) rest

def searchDate (rx : Option Char → List Char → Option (Nat × Nat × Nat))
    (s : List Char) : Option (Nat × Nat × Nat) :=
  searchDateGo rx none s

/-- One regex of the cascade: search, then normalize the first match. -/
def rxResult (rx : Option Char → List Char → Option (Nat × Nat × Nat))
    (after : List Char) : Option (List Char) :=
  match searchDate rx after with
  | some (d, m, y) => normalizar_data d m y
  | none => none

/-- The three date patterns tried in order; an invalid candidate falls
through to the next pattern (lines 538-552). -/
def cascadeDatas (after : List Char) : Option (List Char) :=
  match rxResult rx1At after with
  | some iso => some iso
  | none =>
    match rxResult rx2At after with
    | some iso => some iso
    | none => rxResult rx3At after

/-- The digits-only positional fallback (lines 554-577): DDMMYYYY when at
least 8 digits, DDMMYY when exactly 6. -/
def fallbackDigits (after : List Char) : Option (List Char) :=
  if 8 ≤ (after.filter isDigitCh).length then
    normalizar_data (natOfDigits ((after.filter isDigitCh).take 2))
      (natOfDigits (((after.filter isDigitCh).drop 2).take 2))
      (natOfDigits (((after.filter isDigitCh).drop 4).take 4))
  else if (after.filter isDigitCh).length = 6 then
    normalizar_data (natOfDigits ((after.filter isDigitCh).take 2))
      (natOfDigits (((after.filter isDigitCh).drop 2).take 2))
      (natOfDigits (((after.filter isDigitCh).drop 4).take 2))
  else none

/-- The per-line loop of `_encontrar_data_nascimento` (lines 526-578); the
first line carrying the label is terminal. -/
def encontrarDataLines : List (List Char) → Option (List Char)
  | [] => none
  | raw :: rest =>
    if (pyStrip raw).isEmpty then encontrarDataLines rest
    else if !occursB ("data de nascimento".data)
        (stripAccentsPy ((pyStrip raw).map toLowerPy)) then
      encontrarDataLines rest
    else
      match cascadeDatas
          ((extrair_valor_pos_label (pyStrip raw)).getD (pyStrip raw)) with
      | some iso => some iso
      | none =>
        fallbackDigits ((extrair_valor_pos_label (pyStrip raw)).getD (pyStrip raw))

def encontrar_data_nascimento (bloco : List Char) : Option (List Char) :=
  encontrarDataLines (splitLines bloco)

/-! ## Claim C4: the section decision table -/

/-- C4: `extrai_secao` follows the spec's four-case decision table on the
first case-insensitive occurrences of the training and compensation anchors,
with the fixed distinct placeholders for absent sections and the fallback of
an empty registration slice to the full trimmed block. -/
theorem C4_extrai_secao_tabela (bloco : List Char) :
    extrai_secao bloco = extrai_secao_spec bloco := by
  unfold extrai_secao extrai_secao_spec
  rcases hf : searchPat FORMACAO_PAT bloco with _ | f <;>
    rcases hr : searchPat RECEBIMENTO_PAT bloco with _ | r <;>
    simp only [hf, hr]
  · rfl
  · rfl
  · rfl
  · by_cases hlt : f < r
    · rw [if_pos hlt, if_pos hlt]; rfl
    · rw [if_neg hlt, if_neg hlt]; rfl

/-! ## Claim C5: the identity-number extractor -/

theorem mem_extrair_cpf (linha x : List Char)
    (hx : x ∈ extrair_cpf_de_linha linha) :
    x.length = 11 ∧ x.all isDigitCh = true := by
  unfold extrair_cpf_de_linha at hx
  obtain ⟨frag, hfrag, hf⟩ := List.mem_filterMap.mp hx
  unfold normalizar_cpf_fragmento at hf
  by_cases hl : (frag.filter isDigitCh).length = 11
  · rw [if_pos hl] at hf
    obtain rfl : frag.filter isDigitCh = x := Option.some.inj hf
    exact ⟨hl, List.all_eq_true.mpr (fun c hc => (List.mem_filter.mp hc).2)⟩
  · rw [if_neg hl] at hf
    exact absurd hf (by simp)

theorem encontrarCpfLines_wf : ∀ (ls : List (List Char)) (r : List Char),
    encontrarCpfLines ls = some r → r.length = 11 ∧ r.all isDigitCh = true := by
  intro ls
  induction ls with
  | nil => intro r h; simp [encontrarCpfLines] at h
  | cons raw rest ih =>
    intro r h
    simp only [encontrarCpfLines] at h
    split_ifs at h with h1 h2 h3
    · exact ih r h
    · exact ih r h
    · exact ih r h
    · rcases hx : extrair_cpf_de_linha (pyStrip raw) with _ | ⟨x, xs⟩
      · rw [hx] at h; exact ih r h
      · rw [hx] at h
        obtain rfl : x = r := Option.some.inj h
        exact mem_extrair_cpf _ _ (by rw [hx]; exact List.mem_cons_self _ _)

theorem encontrarCpfLines_pix : ∀ ls : List (List Char),
    (∀ line ∈ ls,
      occursB ("cpf".data) ((pyStrip line).map toLowerPy) = true →
      occursB ("pix".data) ((pyStrip line).map toLowerPy) = true) →
    encontrarCpfLines ls = none := by
  intro ls
  induction ls with
  | nil => intro _; rfl
  | cons raw rest ih =>
    intro hp
    have hrest := fun line hl => hp line (List.mem_cons_of_mem _ hl)
    simp only [encontrarCpfLines]
    split_ifs with h1 h2 h3
    · exact ih hrest
    · exact ih hrest
    · exact ih hrest
    · exfalso
      have hcpf : occursB ("cpf".data) ((pyStrip raw).map toLowerPy) = true := by
        simpa using h2
      exact h3 (hp raw (List.mem_cons_self _ _) hcpf)

/-- C5: every extracted identity number is exactly 11 digits; a corpus all of
whose label-bearing lines mention the payment-key token yields nothing; and
the two spec test vectors hold: `"CPF: 123.456.789-09"` gives
`"12345678909"`, `"CPF via PIX: 123.456.789-09"` gives nothing. -/
theorem C5_cpf_extrator :
    (∀ bloco r : List Char, encontrar_cpf_em_bloco bloco = some r →
      r.length = 11 ∧ r.all isDigitCh = true) ∧
    (∀ bloco : List Char,
      (∀ line ∈ splitLines bloco,
        occursB ("cpf".data) ((pyStrip line).map toLowerPy) = true →
        occursB ("pix".data) ((pyStrip line).map toLowerPy) = true) →
      encontrar_cpf_em_bloco bloco = none) ∧
    encontrar_cpf_em_bloco ("CPF: 123.456.789-09".data) =
      some ("12345678909".data) ∧
    encontrar_cpf_em_bloco ("CPF via PIX: 123.456.789-09".data) = none := by
  refine ⟨?_, ?_, by decide, by decide⟩
  · intro bloco r h
    exact encontrarCpfLines_wf _ r h
  · intro bloco hp
    exact encontrarCpfLines_pix _ hp

/-- Witness: C5 applied to the first spec test vector. -/
theorem C5_witness :
    ("12345678909".data).length = 11 ∧
    ("12345678909".data).all isDigitCh = true :=
  C5_cpf_extrator.1 ("CPF: 123.456.789-09".data) _ (by decide)

/-! ## Claim C7: the health-card extractor -/

theorem quinzeSearch_wf : ∀ (s w : List Char), quinzeSearch s = some w →
    w.length = 15 ∧ w.all isDigitCh = true := by
  intro s
  induction s with
  | nil => intro w h; simp [quinzeSearch] at h
  | cons c rest ih =>
    intro w h
    simp only [quinzeSearch] at h
    split_ifs at h with h1
    · simp only [Bool.and_eq_true, decide_eq_true_eq] at h1
      obtain rfl : ((c :: rest).take 15) = w := Option.some.inj h
      exact ⟨h1.1, h1.2⟩
    · exact ih w h

theorem encontrarCnsLines_wf : ∀ (ls : List (List Char)) (r : List Char),
    encontrarCnsLines ls = some r → r.length = 15 ∧ r.all isDigitCh = true := by
  intro ls
  induction ls with
  | nil => intro r h; simp [encontrarCnsLines] at h
  | cons raw rest ih =>
    intro r h
    simp only [encontrarCnsLines] at h
    by_cases h1 : (pyStrip raw).isEmpty
    · rw [if_pos h1] at h; exact ih r h
    · rw [if_neg h1] at h
      by_cases h2 : (!occursB ("cns".data) ((pyStrip raw).map toLowerPy)) = true
      · rw [if_pos h2] at h; exact ih r h
      · rw [if_neg h2] at h
        rcases hq : quinzeSearch ((pyStrip raw).filter (fun c => c != ' ')) with
          _ | w
        · rw [hq] at h
          have h' : (if 15 ≤ ((pyStrip raw).filter isDigitCh).length then
              some (((pyStrip raw).filter isDigitCh).take 15)
              else encontrarCnsLines rest) = some r := h
          by_cases h3 : 15 ≤ ((pyStrip raw).filter isDigitCh).length
          · rw [if_pos h3] at h'
            obtain rfl : ((pyStrip raw).filter isDigitCh).take 15 = r :=
              Option.some.inj h'
            constructor
            · rw [List.length_take]
              omega
            · exact List.all_eq_true.mpr (fun c hc =>
                (List.mem_filter.mp (List.take_subset _ _ hc)).2)
          · rw [if_neg h3] at h'
            exact ih r h'
        · rw [hq] at h
          obtain rfl : w = r := Option.some.inj h
          exact quinzeSearch_wf _ _ hq

/-- C7: every extracted health-card number is exactly 15 digits, and the
spec test vector holds: the line `"CNS: 700 0010 8284 1506"` yields
`"700001082841506"` (15 contiguous digits after space removal). -/
theorem C7_cns_extrator :
    (∀ bloco r : List Char, encontrar_cns_em_bloco bloco = some r →
      r.length = 15 ∧ r.all isDigitCh = true) ∧
    encontrar_cns_em_bloco ("CNS: 700 0010 8284 1506".data) =
      some ("700001082841506".data) := by
  refine ⟨?_, by decide⟩
  intro bloco r h
  exact encontrarCnsLines_wf _ r h

/-- Witness: C7 applied to the spec test vector. -/
theorem C7_witness :
    ("700001082841506".data).length = 15 ∧
    ("700001082841506".data).all isDigitCh = true :=
  C7_cns_extrator.1 ("CNS: 700 0010 8284 1506".data) _ (by decide)

/-! ## Claim C6: the birth-date extractor -/

/-- C6: `_normalizar_data` maps two-digit years below 30 to the 2000s and
those from 30 on to the 1900s, rejects day/month values out of range, and
the four spec test vectors of the full extractor hold. -/
theorem C6_data_nascimento :
    (∀ d m y : Nat, y < 30 →
      normalizar_data d m y = normalizar_data d m (2000 + y)) ∧
    (∀ d m y : Nat, 30 ≤ y → y < 100 →
      normalizar_data d m y = normalizar_data d m (1900 + y)) ∧
    (∀ d m y : Nat, ¬ (1 ≤ m ∧ m ≤ 12 ∧ 1 ≤ d ∧ d ≤ 31) →
      normalizar_data d m y = none) ∧
    encontrar_data_nascimento ("Data de nascimento: 02/10/1992".data) =
      some ("1992-10-02".data) ∧
    encontrar_data_nascimento ("Data de nascimento: 27021996".data) =
      some ("1996-02-27".data) ∧
    encontrar_data_nascimento ("Data de nascimento: 02/10/86".data) =
      some ("1986-10-02".data) ∧
    encontrar_data_nascimento ("Data de nascimento: 02/10/05".data) =
      some ("2005-10-02".data) := by
  refine ⟨?_, ?_, ?_, by decide, by decide, by decide, by decide⟩
  · intro d m y hy
    unfold normalizar_data
    have h1 : (if y < 100 then (if 30 ≤ y then 1900 + y else 2000 + y) else y) =
        2000 + y := by
      rw [if_pos (by omega), if_neg (by omega)]
    have h2 : (if 2000 + y < 100 then
        (if 30 ≤ 2000 + y then 1900 + (2000 + y) else 2000 + (2000 + y))
        else 2000 + y) = 2000 + y := by
      rw [if_neg (by omega)]
    rw [h1, h2]
  · intro d m y hy hy2
    unfold normalizar_data
    have h1 : (if y < 100 then (if 30 ≤ y then 1900 + y else 2000 + y) else y) =
        1900 + y := by
      rw [if_pos (by omega), if_pos (by omega)]
    have h2 : (if 1900 + y < 100 then
        (if 30 ≤ 1900 + y then 1900 + (1900 + y) else 2000 + (1900 + y))
        else 1900 + y) = 1900 + y := by
      rw [if_neg (by omega)]
    rw [h1, h2]
  · intro d m y h
    unfold normalizar_data
    rw [if_neg h]

/-- Witness: C6's century rule applied at the concrete year 5. -/
theorem C6_witness : normalizar_data 2 10 5 = normalizar_data 2 10 2005 :=
  C6_data_nascimento.1 2 10 5 (by omega)

/-! ## Small parser helpers for the remaining regex cascades

Each pattern of `extrair_informacoes_rg_ci`, `extract_estado_civil` and
`extract_address_email_contacts` is embedded as a deterministic parser on
the suffix at one position; `reSearch` supplies `re.search`'s leftmost-match
scan and `finditer` the non-overlapping `finditer` scan. -/

/-- Case-insensitive literal (pattern given in lower case). -/
def litCI (pat : List Char) (s : List Char) : Option (List Char) :=
  if (s.take pat.length).map toLowerPy = pat then some (s.drop pat.length)
  else none

/-- Regex `\s+` (greedy; always followed by non-whitespace items here). -/
def pWs1 (s : List Char) : Option (List Char) :=
  if (s.takeWhile isSpacePy).isEmpty then none else some (s.dropWhile isSpacePy)

/-- Regex `\s*` (greedy; always followed by non-whitespace items here). -/
def pWs0 (s : List Char) : List Char := s.dropWhile isSpacePy

/-- One fixed character. -/
def pChar (c : Char) : List Char → Option (List Char)
  | x :: rest => if x = c then some rest else none
  | [] => none

/-- One character from a class. -/
def pCharIn (cs : List Char) : List Char → Option (List Char)
  | x :: rest => if cs.contains x then some rest else none
  | [] => none

/-- Greedy `cls+` capture (used where the continuation is outside `cls`). -/
def pCap1 (cls : Char → Bool) (s : List Char) :
    Option (List Char × List Char) :=
  if (s.takeWhile cls).isEmpty then none
  else some (s.takeWhile cls, s.dropWhile cls)

/-- Exactly `n` digits, as text. -/
def pDigitsN (n : Nat) (s : List Char) : Option (List Char × List Char) :=
  if ((s.take n).length = n) && (s.take n).all isDigitCh then
    some (s.take n, s.drop n)
  else none

/-- `hi, hi-1, ..., lo` (greedy backtracking order for bounded repeats). -/
def countdown (hi lo : Nat) : List Nat :=
  (List.range (hi + 1 - lo)).map (fun i => hi - i)

/-- Bounded greedy class repeat `cls{lo,hi}` with backtracking into the
continuation `k` (longest capture first). -/
def pCapBetween {α : Type} (cls : Char → Bool) (lo hi : Nat) (s : List Char)
    (k : List Char → List Char → Option α) : Option α :=
  firstSome (countdown (min hi (s.takeWhile cls).length) lo)
    (fun j => k (s.take j) (s.drop j))

/-- `re.search` driver: leftmost position at which `tryAt` succeeds. -/
def reSearch {α : Type} (tryAt : List Char → Option α) : List Char → Option α
  | [] => tryAt []
  | c :: rest =>
    match tryAt (c :: rest) with
    | some v => some v
    | none => reSearch tryAt rest

/-- First pattern of an ordered cascade whose search succeeds
(`for pat in patterns: m = re.search(pat, texto); if m: ...; break`). -/
def firstMatch : List (List Char → Option (List Char)) → List Char →
    Option (List Char)
  | [], _ => none
  | f :: fs, texto =>
    match f texto with
    | some g => some g
    | none => firstMatch fs texto

/-- `re.finditer` driver: leftmost non-overlapping matches; `tryAt` receives
the previous character (for `^`/`\b`) and returns the value and the
remaining suffix.  Fuel-driven; one unit per consumed character. -/
def finditerGo {α : Type}
    (tryAt : Option Char → List Char → Option (α × List Char)) :
    Nat → Option Char → List Char → List α
  | 0, _, _ => []
  | _, _, [] => []
  | fuel + 1, prev, c :: rest =>
    match tryAt prev (c :: rest) with
    | some (a, rem) =>
      if rem.length < (c :: rest).length then
        a :: finditerGo tryAt fuel
          (((c :: rest).take ((c :: rest).length - rem.length)).getLast?) rem
      else a :: finditerGo tryAt fuel (some c) rest
    | none => finditerGo tryAt fuel (some c) rest

def finditer {α : Type}
    (tryAt : Option Char → List Char → Option (α × List Char))
    (s : List Char) : List α :=
  finditerGo tryAt s.length none s

/-! ## RG / CI bundle (`extrair_informacoes_rg_ci`, lines 606-694) -/

/-- Class `[0-9.]`. -/
def clsDigitDot (c : Char) : Bool := isDigitCh c || c = '.'

/-- Class `[A-ZÀ-Ú]` under `re.IGNORECASE`. -/
def clsUpperLat (c : Char) : Bool :=
  ('A' ≤ c && c ≤ 'Z') || ('a' ≤ c && c ≤ 'z') ||
  (192 ≤ c.toNat && c.toNat ≤ 218) ||
  (224 ≤ c.toNat && c.toNat ≤ 250 && c.toNat != 247)

/-- `Número\s+identidade:\s*([0-9.]+)`. -/
def rgPat1At (s : List Char) : Option (List Char) :=
  litCI "número".data s >>= fun s1 =>
  pWs1 s1 >>= fun s2 =>
  litCI "identidade:".data s2 >>= fun s3 =>
  (pCap1 clsDigitDot (pWs0 s3)).map Prod.fst

/-- Shared prefix `RG\s*\([^)]*\):\s*` of the second and third RG patterns. -/
def rgParenPre (s : List Char) : Option (List Char) :=
  litCI "rg".data s >>= fun s1 =>
  pChar '(' (pWs0 s1) >>= fun s2 =>
  pChar ')' (s2.dropWhile (fun c => c != ')')) >>= fun s3 =>
  pChar ':' s3 >>= fun s4 =>
  some (pWs0 s4)

/-- `RG\s*\([^)]*\):\s*([0-9.]+)-\w{1,3}`. -/
def rgPat2At (s : List Char) : Option (List Char) :=
  rgParenPre s >>= fun s4 =>
  pCap1 clsDigitDot s4 >>= fun (g, s5) =>
  pChar '-' s5 >>= fun s6 =>
  (pCap1 isWordCh s6).map (fun _ => g)

/-- `RG\s*\([^)]*\):\s*([0-9.]+)`. -/
def rgPat3At (s : List Char) : Option (List Char) :=
  rgParenPre s >>= fun s4 =>
  (pCap1 clsDigitDot s4).map Prod.fst

/-- Exactly two word characters (`(\w{2})` with no trailing context). -/
def pWord2 (s : List Char) : Option (List Char) :=
  if ((s.take 2).length = 2) && (s.take 2).all isWordCh then some (s.take 2)
  else none

/-- `UF\s*CI:\s*(\w{2})`. -/
def ufPat1At (s : List Char) : Option (List Char) :=
  litCI "uf".data s >>= fun s1 =>
  litCI "ci:".data (pWs0 s1) >>= fun s2 =>
  pWord2 (pWs0 s2)

/-- `RG\s*\([^)]*\):\s*[0-9.]+-(\w{2})`. -/
def ufPat2At (s : List Char) : Option (List Char) :=
  rgParenPre s >>= fun s4 =>
  pCap1 clsDigitDot s4 >>= fun (_, s5) =>
  pChar '-' s5 >>= fun s6 =>
  pWord2 s6

/-- `-\s*(\w{2})\s*/\s*\w+\s*/`. -/
def ufPat3At (s : List Char) : Option (List Char) :=
  pChar '-' s >>= fun s1 =>
  pWord2 (pWs0 s1) >>= fun g =>
  pChar '/' (pWs0 ((pWs0 s1).drop 2)) >>= fun s3 =>
  pCap1 isWordCh (pWs0 s3) >>= fun (_, s4) =>
  (pChar '/' (pWs0 s4)).map (fun _ => g)

/-- `-\s*(\w{2})\s*,\s*ÓRGÃO`. -/
def ufPat4At (s : List Char) : Option (List Char) :=
  pChar '-' s >>= fun s1 =>
  pWord2 (pWs0 s1) >>= fun g =>
  pChar ',' (pWs0 ((pWs0 s1).drop 2)) >>= fun s3 =>
  (litCI "órgão".data (pWs0 s3)).map (fun _ => g)

/-- `{2,10}` of `clsUpperLat` with nothing after: greedy, needs at least 2. -/
def pUpper2to10 (s : List Char) : Option (List Char) :=
  if 2 ≤ (s.takeWhile clsUpperLat).length then
    some (s.take (min (s.takeWhile clsUpperLat).length 10))
  else none

/-- `Órgão\s+emissor\s+CI:\s*([A-ZÀ-Ú]{2,10})`. -/
def orgaoPat1At (s : List Char) : Option (List Char) :=
  litCI "órgão".data s >>= fun s1 =>
  pWs1 s1 >>= fun s2 =>
  litCI "emissor".data s2 >>= fun s3 =>
  pWs1 s3 >>= fun s4 =>
  litCI "ci:".data s4 >>= fun s5 =>
  pUpper2to10 (pWs0 s5)

/-- `(\d{2}/\d{2}/\d{4})`, capturing the full date text. -/
def pDateDMY (s : List Char) : Option (List Char × List Char) :=
  pDigitsN 2 s >>= fun (a, s1) =>
  pChar '/' s1 >>= fun s2 =>
  pDigitsN 2 s2 >>= fun (b, s3) =>
  pChar '/' s3 >>= fun s4 =>
  (pDigitsN 4 s4).map (fun p => (a ++ '/' :: b ++ '/' :: p.1, p.2))

/-- `/\s*([A-ZÀ-Ú]{2,10})\s*/\s*\d{2}/\d{2}/\d{4}`. -/
def orgaoPat2At (s : List Char) : Option (List Char) :=
  pChar '/' s >>= fun s1 =>
  pCapBetween clsUpperLat 2 10 (pWs0 s1) (fun g rest =>
    pChar '/' (pWs0 rest) >>= fun s2 =>
    (pDateDMY (pWs0 s2)).map (fun _ => g))

/-- `ÓRGÃO\s+EMISSOR\s+([A-ZÀ-Ú]{2,10})`. -/
def orgaoPat3At (s : List Char) : Option (List Char) :=
  litCI "órgão".data s >>= fun s1 =>
  pWs1 s1 >>= fun s2 =>
  litCI "emissor".data s2 >>= fun s3 =>
  pWs1 s3 >>= fun s4 =>
  pUpper2to10 s4

/-- `\b\w{2}\s*/\s*([A-ZÀ-Ú]{2,10})\s*/` (needs the previous character for
the leading word boundary). -/
def orgaoPat4At (prev : Option Char) (s : List Char) : Option (List Char) :=
  if !bdryBefore prev then none
  else
    pWord2 s >>= fun _ =>
    pChar '/' (pWs0 (s.drop 2)) >>= fun s1 =>
    pCapBetween clsUpperLat 2 10 (pWs0 s1) (fun g rest =>
      (pChar '/' (pWs0 rest)).map (fun _ => g))

/-- `re.search` with previous-character tracking. -/
def reSearchPrev {α : Type}
    (tryAt : Option Char → List Char → Option α) :
    Option Char → List Char → Option α
  | prev, [] => tryAt prev []
  | prev, c :: rest =>
    match tryAt prev (c :: rest) with
    | some v => some v
    | none => reSearchPrev tryAt (some c) rest

/-- `Data\s+de\s+emissão\s+CI:\s*(\d{2}/\d{2}/\d{4})`. -/
def dePat1At (s : List Char) : Option (List Char) :=
  litCI "data".data s >>= fun s1 =>
  pWs1 s1 >>= fun s2 =>
  litCI "de".data s2 >>= fun s3 =>
  pWs1 s3 >>= fun s4 =>
  litCI "emissão".data s4 >>= fun s5 =>
  pWs1 s5 >>= fun s6 =>
  litCI "ci:".data s6 >>= fun s7 =>
  (pDateDMY (pWs0 s7)).map Prod.fst

/-- `/\s*\w+\s*/\s*(\d{2}/\d{2}/\d{4})`. -/
def dePat2At (s : List Char) : Option (List Char) :=
  pChar '/' s >>= fun s1 =>
  pCap1 isWordCh (pWs0 s1) >>= fun (_, s2) =>
  pChar '/' (pWs0 s2) >>= fun s3 =>
  (pDateDMY (pWs0 s3)).map Prod.fst

/-- `DATA\s+EMISS[ÃA]O\s+(\d{2}/\d{2}/\d{4})`. -/
def dePat3At (s : List Char) : Option (List Char) :=
  litCI "data".data s >>= fun s1 =>
  pWs1 s1 >>= fun s2 =>
  litCI "emiss".data s2 >>= fun s3 =>
  pCharIn ['Ã', 'ã', 'A', 'a'] s3 >>= fun s4 =>
  litCI "o".data s4 >>= fun s5 =>
  pWs1 s5 >>= fun s6 =>
  (pDateDMY s6).map Prod.fst

/-- `Município\s+de\s+nascimento:\s*([^\n-]+)`. -/
def munPat1At (s : List Char) : Option (List Char) :=
  litCI "município".data s >>= fun s1 =>
  pWs1 s1 >>= fun s2 =>
  litCI "de".data s2 >>= fun s3 =>
  pWs1 s3 >>= fun s4 =>
  litCI "nascimento:".data s4 >>= fun s5 =>
  (pCap1 (fun c => c != '\n' && c != '-') (pWs0 s5)).map Prod.fst

/-- `MUNIC[IÍ]PIO\s+DE\s+NASCIMENTO:\s*([^\n]+)`. -/
def munPat2At (s : List Char) : Option (List Char) :=
  litCI "munic".data s >>= fun s1 =>
  pCharIn ['I', 'i', 'Í', 'í'] s1 >>= fun s2 =>
  litCI "pio".data s2 >>= fun s3 =>
  pWs1 s3 >>= fun s4 =>
  litCI "de".data s4 >>= fun s5 =>
  pWs1 s5 >>= fun s6 =>
  litCI "nascimento:".data s6 >>= fun s7 =>
  (pCap1 (fun c => c != '\n') (pWs0 s7)).map Prod.fst

/-- `UF\s*DE\s+NASCIMENTO:\s*(\w{2})`. -/
def ufnPat1At (s : List Char) : Option (List Char) :=
  litCI "uf".data s >>= fun s1 =>
  litCI "de".data (pWs0 s1) >>= fun s2 =>
  pWs1 s2 >>= fun s3 =>
  litCI "nascimento:".data s3 >>= fun s4 =>
  pWord2 (pWs0 s4)

/-- `UF\s+de\s+nascimento:\s*(\w{2})`. -/
def ufnPat2At (s : List Char) : Option (List Char) :=
  litCI "uf".data s >>= fun s1 =>
  pWs1 s1 >>= fun s2 =>
  litCI "de".data s2 >>= fun s3 =>
  pWs1 s3 >>= fun s4 =>
  litCI "nascimento:".data s4 >>= fun s5 =>
  pWord2 (pWs0 s5)

/-- `UF:\s*(\w{2})\b`. -/
def ufnPat3At (s : List Char) : Option (List Char) :=
  litCI "uf:".data s >>= fun s1 =>
  pWord2 (pWs0 s1) >>= fun g =>
  if endBdry ((pWs0 s1).drop 2) then some g else none

/-- `str.rstrip(chars)`. -/
def pyRStripChars (cs : List Char) (s : List Char) : List Char :=
  (s.reverse.dropWhile (fun c => cs.contains c)).reverse

structure RgCi where
  rg : List (List Char)
  uf_ci : List (List Char)
  orgao_emissor_ci : List (List Char)
  data_emissao_ci : List (List Char)
  endereco_nascimento : List (List Char)
deriving DecidableEq

/-- `extrair_informacoes_rg_ci` (lines 606-694): RG / identity-document
bundle with its per-subfield pattern cascades. -/
def extrair_informacoes_rg_ci (texto : List Char) : RgCi :=
  if texto.isEmpty then ⟨[], [], [], [], []⟩
  else
    { rg :=
        match firstMatch [reSearch rgPat1At, reSearch rgPat2At,
            reSearch rgPat3At] texto with
        | some g => [g.filter (fun c => c != '.')]
        | none => [],
      uf_ci :=
        match firstMatch [reSearch ufPat1At, reSearch ufPat2At,
            reSearch ufPat3At, reSearch ufPat4At] texto with
        | some g => [g.map toUpperPy]
        | none => [],
      orgao_emissor_ci :=
        match firstMatch [reSearch orgaoPat1At, reSearch orgaoPat2At,
            reSearch orgaoPat3At, reSearchPrev orgaoPat4At none] texto with
        | some g => [g.map toUpperPy]
        | none => [],
      data_emissao_ci :=
        match firstMatch [reSearch dePat1At, reSearch dePat2At,
            reSearch dePat3At] texto with
        | some g => [g]
        | none => [],
      endereco_nascimento :=
        match firstMatch [reSearch munPat1At, reSearch munPat2At] texto,
            firstMatch [reSearch ufnPat1At, reSearch ufnPat2At,
              reSearch ufnPat3At] texto with
        | some mun, some uf =>
          [pyRStripChars " .;".data (pyStrip mun) ++ ' ' :: '-' :: ' ' ::
            uf.map toUpperPy]
        | some mun, none => [pyRStripChars " .;".data (pyStrip mun)]
        | none, _ => [] }

/-! ## Marital status (`extract_estado_civil`, lines 696-708) -/

/-- `re.sub(r"[ \t]+", " ", ·)`: collapse horizontal whitespace runs. -/
def collapseHT : List Char → List Char
  | [] => []
  | [c] => if c = ' ' || c = '\t' then [' '] else [c]
  | c :: d :: rest =>
    if c = ' ' || c = '\t' then
      if d = ' ' || d = '\t' then collapseHT (d :: rest)
      else ' ' :: collapseHT (d :: rest)
    else c :: collapseHT (d :: rest)

/-- One line against `^(?:-\s*)?estado\s*civil\s*:\s*([^\r\n]+?)\s*$`. -/
def estadoCivilLine (line : List Char) : Option (List Char) :=
  litCI "estado".data
      (match line with
       | '-' :: rest => pWs0 rest
       | _ => line) >>= fun s1 =>
  litCI "civil".data (pWs0 s1) >>= fun s2 =>
  pChar ':' (pWs0 s2) >>= fun s3 =>
  if (pyStrip s3).isEmpty then none else some (pyStrip s3)

/-- `_dedup` (lines 118-133): skip blank values, deduplicate on the
case-folded key, keep the first-seen form and order. -/
def dedupGo : List (List Char) → List (List Char) → List (List Char)
  | _, [] => []
  | seen, x :: rest =>
    if (pyStrip x).isEmpty then dedupGo seen rest
    else if seen.contains ((pyStrip x).map toLowerPy) then dedupGo seen rest
    else pyStrip x :: dedupGo (((pyStrip x).map toLowerPy) :: seen) rest

def dedupPy (l : List (List Char)) : List (List Char) := dedupGo [] l

/-- `extract_estado_civil`: non-breaking spaces to spaces, horizontal
whitespace collapsed, line-anchored label match, then `_dedup`. -/
def extract_estado_civil (text : List Char) : List (List Char) :=
  dedupPy ((splitLines (collapseHT
    (text.map (fun c => if c = '\xa0' then ' ' else c)))).filterMap
    estadoCivilLine)

/-! ## Contact bundle (`extract_address_email_contacts`, lines 310-407) -/

/-- `re.sub(r"\s+", " ", ·)`: collapse all whitespace runs to one space. -/
def collapseWsAll : List Char → List Char
  | [] => []
  | [c] => if isSpacePy c then [' '] else [c]
  | c :: d :: rest =>
    if isSpacePy c then
      if isSpacePy d then collapseWsAll (d :: rest)
      else ' ' :: collapseWsAll (d :: rest)
    else c :: collapseWsAll (d :: rest)

/-- `_norm_space` (lines 110-112). -/
def norm_space (s : List Char) : List Char :=
  pyStripChars " ;.-".data (pyStrip (collapseWsAll s))

/-- Local-part class `[A-Z0-9._%+-]` (case-insensitive). -/
def emailLocalCls (c : Char) : Bool :=
  ('a' ≤ c && c ≤ 'z') || ('A' ≤ c && c ≤ 'Z') || isDigitCh c ||
  c = '.' || c = '_' || c = '%' || c = '+' || c = '-'

/-- Domain class `[A-Z0-9.-]` (case-insensitive). -/
def emailDomCls (c : Char) : Bool :=
  ('a' ≤ c && c ≤ 'z') || ('A' ≤ c && c ≤ 'Z') || isDigitCh c ||
  c = '.' || c = '-'

/-- Top-level-domain class `[A-Z]` (case-insensitive). -/
def emailTldCls (c : Char) : Bool :=
  ('a' ≤ c && c ≤ 'z') || ('A' ≤ c && c ≤ 'Z')

/-- `[A-Z0-9._%+-]+@[A-Z0-9.-]+\.[A-Z]{2,}` at one position; the greedy
domain run backtracks to the last dot followed by two or more letters. -/
def emailAt (s : List Char) : Option (List Char × List Char) :=
  pCap1 emailLocalCls s >>= fun (loc, s1) =>
  pChar '@' s1 >>= fun s2 =>
  firstSome (countdown ((s2.takeWhile emailDomCls).length) 1) (fun j =>
    match s2.drop j with
    | '.' :: s3 =>
      if 2 ≤ (s3.takeWhile emailTldCls).length then
        some (loc ++ '@' :: (s2.take j) ++ '.' :: s3.takeWhile emailTldCls,
          s3.dropWhile emailTldCls)
      else none
    | _ => none)

/-- `CRM-ES\s*[:\-]?\s*([\d\.]+)` at one position. -/
def crmAt (s : List Char) : Option (List Char × List Char) :=
  litCI "crm-es".data s >>= fun s1 =>
  pCap1 clsDigitDot
    (pWs0 (match pWs0 s1 with
           | ':' :: r => r
           | '-' :: r => r
           | other => other))

/-! ### Telephones (`PHONE_RX`): nondeterministic parser, remainders in
regex backtracking order. -/

def pN (f : List Char → Option (List Char)) (s : List Char) : List (List Char) :=
  match f s with
  | some r => [r]
  | none => []

def pSeqN (p q : List Char → List (List Char)) (s : List Char) :
    List (List Char) :=
  (p s).flatMap q

/-- Optional group: present first, then absent (regex greedy `?`). -/
def pOptN (p : List Char → List (List Char)) (s : List Char) : List (List Char) :=
  p s ++ [s]

/-- `\s*`: all suffixes, longest skip first (regex greedy star). -/
def pWsStarN (s : List Char) : List (List Char) :=
  (countdown ((s.takeWhile isSpacePy).length) 0).map (fun k => s.drop k)

def pDigitsExactN (n : Nat) (s : List Char) : List (List Char) :=
  pN (fun u => (pDigitsN n u).map Prod.snd) s

/-- Class `[-\s]` of the phone separators. -/
def phoneSepCls : List Char := ['-', ' ', '\t', '\n', '\r', '\x0b', '\x0c']

/-- `(?:(?:\+?55)\s*)?`. -/
def phoneDdi : List Char → List (List Char) :=
  pOptN (pSeqN (pSeqN (pOptN (pN (pChar '+'))) (pN (litCI "55".data))) pWsStarN)

/-- `(?:\(?\d{2}\)?\s*)?`. -/
def phoneDdd : List Char → List (List Char) :=
  pOptN (pSeqN (pOptN (pN (pChar '(')))
    (pSeqN (pDigitsExactN 2) (pSeqN (pOptN (pN (pChar ')'))) pWsStarN)))

/-- `\d{5}[-\s]?\d{4} | \d{4}[-\s]?\d{4} | \d{8,9}` in written order,
`{8,9}` longest first. -/
def phoneLocal (s : List Char) : List (List Char) :=
  pSeqN (pDigitsExactN 5)
    (pSeqN (pOptN (pN (pCharIn phoneSepCls))) (pDigitsExactN 4)) s ++
  pSeqN (pDigitsExactN 4)
    (pSeqN (pOptN (pN (pCharIn phoneSepCls))) (pDigitsExactN 4)) s ++
  pDigitsExactN 9 s ++ pDigitsExactN 8 s

/-- `PHONE_RX` at one position: first remainder in backtracking order wins. -/
def phoneAt (s : List Char) : Option (List Char × List Char) :=
  match pSeqN phoneDdi (pSeqN phoneDdd phoneLocal) s with
  | [] => none
  | rem :: _ => some (s.take (s.length - rem.length), rem)

/-- All `PHONE_RX` matches of one line, `_norm_space`d. -/
def phonesInLine (line : List Char) : List (List Char) :=
  (finditer (fun _ s => phoneAt s) line).map norm_space

/-- One line against `^\s*[-–•]*\s*(?:Tel\.?|TEL)` (the rest of the tel-line
pattern, `\s*:?.*$`, always matches). -/
def telLineMatches (line : List Char) : Bool :=
  (litCI "tel".data
    (pWs0 ((pWs0 line).dropWhile
      (fun c => c = '-' || c = '–' || c = '•')))).isSome

/-- `contato\s+de\s+urg[êe]ncia` at one position. -/
def urgAt (s : List Char) : Option (List Char) :=
  litCI "contato".data s >>= fun s1 =>
  pWs1 s1 >>= fun s2 =>
  litCI "de".data s2 >>= fun s3 =>
  pWs1 s3 >>= fun s4 =>
  litCI "urg".data s4 >>= fun s5 =>
  pCharIn ['ê', 'e', 'Ê', 'E'] s5 >>= fun s6 =>
  litCI "ncia".data s6

/-- `Em\s+caso\s+de\s+necessidade,\s*ligar\s+para` at one position. -/
def emCasoAt (s : List Char) : Option (List Char) :=
  litCI "em".data s >>= fun s1 =>
  pWs1 s1 >>= fun s2 =>
  litCI "caso".data s2 >>= fun s3 =>
  pWs1 s3 >>= fun s4 =>
  litCI "de".data s4 >>= fun s5 =>
  pWs1 s5 >>= fun s6 =>
  litCI "necessidade".data s6 >>= fun s7 =>
  pChar ',' s7 >>= fun s8 =>
  litCI "ligar".data (pWs0 s8) >>= fun s9 =>
  pWs1 s9 >>= fun s10 =>
  litCI "para".data s10

/-- `Tel\.?\s*do\s+contato\s+de\s+urg[êe]ncia` at one position. -/
def telDoAt (s : List Char) : Option (List Char) :=
  litCI "tel".data s >>= fun s1 =>
  litCI "do".data
      (pWs0 (match s1 with | '.' :: r => r | other => other)) >>= fun s2 =>
  pWs1 s2 >>= fun s3 =>
  litCI "contato".data s3 >>= fun s4 =>
  pWs1 s4 >>= fun s5 =>
  litCI "de".data s5 >>= fun s6 =>
  pWs1 s6 >>= fun s7 =>
  litCI "urg".data s7 >>= fun s8 =>
  pCharIn ['ê', 'e', 'Ê', 'E'] s8 >>= fun s9 =>
  litCI "ncia".data s9

/-- One line against the emergency-contact line pattern (lines 368-370). -/
def emergLineMatches (line : List Char) : Bool :=
  (urgAt (pWs0 ((pWs0 line).dropWhile
      (fun c => c = '-' || c = '–' || c = '•')))).isSome ||
  (emCasoAt (pWs0 ((pWs0 line).dropWhile
      (fun c => c = '-' || c = '–' || c = '•')))).isSome ||
  (telDoAt (pWs0 ((pWs0 line).dropWhile
      (fun c => c = '-' || c = '–' || c = '•')))).isSome

/-- `re.search(r"contato\s+de\s+urg[êe]ncia", line)` as a Bool. -/
def containsUrg : List Char → Bool
  | [] => (urgAt []).isSome
  | c :: rest => (urgAt (c :: rest)).isSome || containsUrg rest

/-- `re.findall(r"\(([^)]+)\)", line)`: parenthesised texts (fuel-driven). -/
def parenFindGo : Nat → List Char → List (List Char)
  | 0, _ => []
  | _, [] => []
  | fuel + 1, c :: rest =>
    if c = '(' then
      if (rest.takeWhile (fun d => d != ')')).isEmpty then parenFindGo fuel rest
      else
        match rest.drop (rest.takeWhile (fun d => d != ')')).length with
        | ')' :: rem =>
          rest.takeWhile (fun d => d != ')') :: parenFindGo fuel rem
        | _ => parenFindGo fuel rest
    else parenFindGo fuel rest

def parenFind (line : List Char) : List (List Char) :=
  parenFindGo line.length line

/-- `[A-Za-zÀ-ÿ]` test. -/
def hasLetterLat (s : List Char) : Bool :=
  s.any (fun c => ('a' ≤ c && c ≤ 'z') || ('A' ≤ c && c ≤ 'Z') ||
    (192 ≤ c.toNat && c.toNat ≤ 255))

/-- Emergency-contact relationship values of one matching line
(lines 379-394): parenthesised texts containing a letter, else the words
between the first colon and the first digit. -/
def tiposFromLine (line : List Char) : List (List Char) :=
  if !((parenFind line).filter hasLetterLat).isEmpty then
    ((parenFind line).filter hasLetterLat).map norm_space
  else
    if hasLetterLat (pyStrip (pyStripChars " :;.,-–•(".data (norm_space
        ((match splitOnceColon line with
          | some (_, t) => t
          | none => line).takeWhile (fun c => !isDigitCh c))))) then
      [pyStrip (pyStripChars " :;.,-–•(".data (norm_space
        ((match splitOnceColon line with
          | some (_, t) => t
          | none => line).takeWhile (fun c => !isDigitCh c))))]
    else []

/-! ### Address -/

/-- Lookahead `(?=^\s*CEP\b|$)` of the address pattern at offset `pos` of
the capture buffer (`$` in MULTILINE mode: end of text or before a
newline). -/
def addrLook (rest : List Char) (pos : Nat) : Bool :=
  (rest.drop pos).isEmpty || (rest.drop pos).head? = some '\n' ||
  (rest.getD (pos - 1) ' ' = '\n' &&
    (match litCI "cep".data (pWs0 (rest.drop pos)) with
     | some r => endBdry r
     | none => false))

/-- The lazy capture `(.+?)\s*(?=^\s*CEP\b|$)`: shortest capture `c ≥ 1`
first; for it, the greedy `\s*` skip `w`, longest first. -/
def addrFindCap (rest : List Char) : Option (Nat × Nat) :=
  firstSome ((List.range rest.length).map (fun i => i + 1)) (fun c =>
    (firstSome (countdown (((rest.drop c).takeWhile isSpacePy).length) 0)
      (fun w => if addrLook rest (c + w) then some w else none)).map
      (fun w => (c, w)))

/-- `\s*[;,.]?\s*CEP\b` at one position (of the normalized address). -/
def cepPatAt (s : List Char) : Bool :=
  match litCI "cep".data
      (pWs0 (match pWs0 s with
             | ';' :: r => r
             | ',' :: r => r
             | '.' :: r => r
             | other => other)) with
  | some r => endBdry r
  | none => false

def cepCutFind : Nat → List Char → Option Nat
  | _, [] => none
  | i, c :: rest =>
    if cepPatAt (c :: rest) then some i else cepCutFind (i + 1) rest

/-- `re.sub(r"\s*[;,.]?\s*CEP\b.*$", "", addr)`. -/
def cepCut (s : List Char) : List Char :=
  match cepCutFind 0 s with
  | some i => s.take i
  | none => s

/-- The address pattern at one position: anchored at a line start, optional
bullet, the `Endereço` label with its optional qualifiers, a separator, then
the lazy capture bounded by the postal-code lookahead.  Returns the
normalized, postal-code-stripped value (`none` when it normalizes away) and
the remaining suffix. -/
def addrAt (prev : Option Char) (s : List Char) :
    Option (Option (List Char) × List Char) :=
  if !(prev = none || prev = some '\n') then none
  else
    litCI "endere".data
        (pWs0 (match pWs0 s with
               | '-' :: r => r
               | '–' :: r => r
               | '•' :: r => r
               | other => other)) >>= fun s4 =>
    pCharIn ['c', 'ç', 'C', 'Ç'] s4 >>= fun s5 =>
    litCI "o".data s5 >>= fun s6 =>
    let s7 := (pWs1 s6 >>= litCI "completo".data).getD s6
    let s8 := (pWs1 s7 >>= litCI "com".data >>= fun u =>
      pWs1 u >>= litCI "cep".data).getD s7
    pCharIn [':', '-'] (pWs0 s8) >>= fun s10 =>
    let s11 := pWs0 s10
    (addrFindCap s11).map (fun p =>
      ((if (cepCut (norm_space (s11.take p.1))).isEmpty then none
        else some (cepCut (norm_space (s11.take p.1)))),
       s11.drop (p.1 + p.2)))

/-- `Carga\s+hor[aá]ria\s+semanal\s*[:\-]\s*(.+)` at one position. -/
def cargaAt (s : List Char) : Option (List Char × List Char) :=
  litCI "carga".data s >>= fun s1 =>
  pWs1 s1 >>= fun s2 =>
  litCI "hor".data s2 >>= fun s3 =>
  pCharIn ['a', 'á', 'A', 'Á'] s3 >>= fun s4 =>
  litCI "ria".data s4 >>= fun s5 =>
  pWs1 s5 >>= fun s6 =>
  litCI "semanal".data s6 >>= fun s7 =>
  pCharIn [':', '-'] (pWs0 s7) >>= fun s8 =>
  pCap1 (fun c => c != '\n') (pWs0 s8)

structure Contatos where
  endereco : List (List Char)
  crm : List (List Char)
  email : List (List Char)
  telefone : List (List Char)
  telefone_emergencia : List (List Char)
  tipo_contato_emergencia : List (List Char)
  carga_horaria_semanal : List (List Char)
deriving DecidableEq

/-- `extract_address_email_contacts` (lines 310-407). -/
def extract_address_email_contacts (text : List Char) : Contatos :=
  { endereco := (finditer addrAt text).filterMap id,
    crm := finditer (fun _ s => crmAt s) text,
    email := finditer (fun _ s => emailAt s) text,
    telefone :=
      ((splitLines text).filter
        (fun line => telLineMatches line && !containsUrg line)).flatMap
        phonesInLine,
    telefone_emergencia :=
      ((splitLines text).filter emergLineMatches).flatMap phonesInLine,
    tipo_contato_emergencia :=
      ((splitLines text).filter emergLineMatches).flatMap tiposFromLine,
    carga_horaria_semanal :=
      (finditer (fun _ s => cargaAt s) text).filterMap
        (fun g => if (norm_space g).isEmpty then none else some (norm_space g)) }

/-! ## Record assembler and main processing (`processar_documentos_medicos`) -/

structure BlocoDict where
  nome : List Char
  cpf : List Char
  cns : List Char
  nome_mae : List Char
  nome_pai : List Char
  data_nascimento : List Char
  cadastro : List Char
  formacao : List Char
  recebimento : List Char
  rg : List (List Char)
  uf_ci : List (List Char)
  orgao_emissor_ci : List (List Char)
  data_emissao_ci : List (List Char)
  endereco_nascimento : List (List Char)
  estado_civil : List (List Char)
  endereco : List (List Char)
  crm : List (List Char)
  email : List (List Char)
  telefone : List (List Char)
  telefone_emergencia : List (List Char)
  tipo_contato_emergencia : List (List Char)
  carga_horaria_semanal : List (List Char)
deriving DecidableEq

/-- The loop body of `processar_documentos_medicos` (lines 747-818) that
assembles one record.  Python's `x or PLACEHOLDER` equals `Option.getD`
here because no extractor ever returns an empty string. -/
def montarBloco (bloco : List Char) : BlocoDict :=
  let secoes := extrai_secao bloco
  let cad := secoes.cadastro
  let rg_ci := if !cad.isEmpty then extrair_informacoes_rg_ci cad
    else ⟨[], [], [], [], []⟩
  let contatos := if !cad.isEmpty then extract_address_email_contacts cad
    else ⟨[], [], [], [], [], [], []⟩
  { nome := (encontrar_nome_profissional cad).getD PLACEHOLDER_NOME,
    cpf := (encontrar_cpf_em_bloco cad).getD PLACEHOLDER_CPF,
    cns := (encontrar_cns_em_bloco cad).getD PLACEHOLDER_CNS,
    nome_mae := (encontrar_nome_mae cad).getD PLACEHOLDER_MAE,
    nome_pai := (encontrar_nome_pai cad).getD PLACEHOLDER_PAI,
    data_nascimento := (encontrar_data_nascimento cad).getD PLACEHOLDER_DT_NASC,
    cadastro := secoes.cadastro,
    formacao := secoes.formacao,
    recebimento := secoes.recebimento,
    rg := rg_ci.rg,
    uf_ci := rg_ci.uf_ci,
    orgao_emissor_ci := rg_ci.orgao_emissor_ci,
    data_emissao_ci := rg_ci.data_emissao_ci,
    endereco_nascimento := rg_ci.endereco_nascimento,
    estado_civil := extract_estado_civil cad,
    endereco := contatos.endereco,
    crm := contatos.crm,
    email := contatos.email,
    telefone := contatos.telefone,
    telefone_emergencia := contatos.telefone_emergencia,
    tipo_contato_emergencia := contatos.tipo_contato_emergencia,
    carga_horaria_semanal := contatos.carga_horaria_semanal }

/-- A record value: single-valued string field or multi-valued sequence. -/
inductive Campo where
  | s (v : List Char)
  | l (v : List (List Char))
deriving DecidableEq

/-- The `bloco_dict` literal of lines 795-818: key/value pairs in source
order. -/
def blocoItems (b : BlocoDict) : List (String × Campo) :=
  [("nome", .s b.nome), ("cpf", .s b.cpf), ("cns", .s b.cns),
   ("nome_mae", .s b.nome_mae), ("nome_pai", .s b.nome_pai),
   ("data_nascimento", .s b.data_nascimento),
   ("cadastro", .s b.cadastro), ("formacao", .s b.formacao),
   ("recebimento", .s b.recebimento),
   ("rg", .l b.rg), ("uf_ci", .l b.uf_ci),
   ("orgao_emissor_ci", .l b.orgao_emissor_ci),
   ("data_emissao_ci", .l b.data_emissao_ci),
   ("endereco_nascimento", .l b.endereco_nascimento),
   ("estado_civil", .l b.estado_civil),
   ("endereco", .l b.endereco), ("crm", .l b.crm), ("email", .l b.email),
   ("telefone", .l b.telefone),
   ("telefone_emergencia", .l b.telefone_emergencia),
   ("tipo_contato_emergencia", .l b.tipo_contato_emergencia),
   ("carga_horaria_semanal", .l b.carga_horaria_semanal)]

/-- The declared field keys of a record, in source order. -/
def declaredKeys : List String :=
  ["nome", "cpf", "cns", "nome_mae", "nome_pai", "data_nascimento",
   "cadastro", "formacao", "recebimento", "rg", "uf_ci", "orgao_emissor_ci",
   "data_emissao_ci", "endereco_nascimento", "estado_civil", "endereco",
   "crm", "email", "telefone", "telefone_emergencia",
   "tipo_contato_emergencia", "carga_horaria_semanal"]

structure AuditCns where
  nome : List Char
  cpf : List Char
deriving DecidableEq

structure AuditCpf where
  cpf : List Char
deriving DecidableEq

structure ResultadoMedico where
  blocos : List BlocoDict
  cns_nao_identificados : List AuditCns
  mae_nao_identificados : List AuditCpf
  pai_nao_identificados : List AuditCpf
  data_nascimento_nao_identificados : List AuditCpf
deriving DecidableEq

/-- The per-block loop of `processar_documentos_medicos` (lines 747-819):
one traversal assembles the records and the four audit registries, in block
order.  The audit conditions are written exactly as in the source: the
health-card condition compares the defaulted value against its placeholder,
the other three test the raw extractor result for falsiness. -/
def processarBlocos : List (List Char) → ResultadoMedico
  | [] => ⟨[], [], [], [], []⟩
  | bloco :: rest =>
    { blocos := montarBloco bloco :: (processarBlocos rest).blocos,
      cns_nao_identificados :=
        (if (encontrar_cns_em_bloco (extrai_secao bloco).cadastro).getD
            PLACEHOLDER_CNS = PLACEHOLDER_CNS then
          [{ nome := (encontrar_nome_profissional
                (extrai_secao bloco).cadastro).getD PLACEHOLDER_NOME,
             cpf := (encontrar_cpf_em_bloco
                (extrai_secao bloco).cadastro).getD PLACEHOLDER_CPF }]
        else []) ++ (processarBlocos rest).cns_nao_identificados,
      mae_nao_identificados :=
        (if encontrar_nome_mae (extrai_secao bloco).cadastro = none then
          [{ cpf := (encontrar_cpf_em_bloco
              (extrai_secao bloco).cadastro).getD PLACEHOLDER_CPF }]
        else []) ++ (processarBlocos rest).mae_nao_identificados,
      pai_nao_identificados :=
        (if encontrar_nome_pai (extrai_secao bloco).cadastro = none then
          [{ cpf := (encontrar_cpf_em_bloco
              (extrai_secao bloco).cadastro).getD PLACEHOLDER_CPF }]
        else []) ++ (processarBlocos rest).pai_nao_identificados,
      data_nascimento_nao_identificados :=
        (if encontrar_data_nascimento (extrai_secao bloco).cadastro = none then
          [{ cpf := (encontrar_cpf_em_bloco
              (extrai_secao bloco).cadastro).getD PLACEHOLDER_CPF }]
        else []) ++ (processarBlocos rest).data_nascimento_nao_identificados }

/-- A value of the inner `resultado["medico"]` mapping. -/
inductive MedValor where
  | registros (v : List BlocoDict)
  | auditCns (v : List AuditCns)
  | auditCpf (v : List AuditCpf)
deriving DecidableEq

/-- `processar_documentos_medicos` (lines 720-827), as the inner
`resultado["medico"]` mapping in insertion order; the `none` input models
`FileNotFoundError` on the normalized input file, where the function
returns the initial `{"blocos": []}` without the audit keys. -/
def processar_documentos_medicos (conteudo : Option (List Char)) :
    List (String × MedValor) :=
  match conteudo with
  | none => [("blocos", .registros [])]
  | some c =>
    [("blocos", .registros (processarBlocos (segmentar_blocos c)).blocos),
     ("cns_nao_identificados",
       .auditCns (processarBlocos (segmentar_blocos c)).cns_nao_identificados),
     ("mae_nao_identificados",
       .auditCpf (processarBlocos (segmentar_blocos c)).mae_nao_identificados),
     ("pai_nao_identificados",
       .auditCpf (processarBlocos (segmentar_blocos c)).pai_nao_identificados),
     ("data_nascimento_nao_identificados",
       .auditCpf (processarBlocos
         (segmentar_blocos c)).data_nascimento_nao_identificados)]

/-! ## Supporting lemmas for the schema and audit claims -/

theorem all_takeWhile (p : Char → Bool) (l : List Char) :
    ∀ c ∈ l.takeWhile p, p c = true := by
  induction l with
  | nil => simp
  | cons a l ih =>
    by_cases ha : p a
    · intro c hc
      rw [List.takeWhile_cons, if_pos ha] at hc
      rcases List.mem_cons.mp hc with rfl | hmem
      · exact ha
      · exact ih c hmem
    · intro c hc
      rw [List.takeWhile_cons, if_neg ha] at hc
      simp at hc

theorem all_of_dropWhile_nil (p : Char → Bool) (l : List Char)
    (h : l.dropWhile p = []) : ∀ c ∈ l, p c = true := by
  induction l with
  | nil => simp
  | cons a l ih =>
    by_cases ha : p a
    · rw [List.dropWhile_cons, if_pos ha] at h
      intro c hc
      rcases List.mem_cons.mp hc with rfl | hmem
      · exact ha
      · exact ih h c hmem
    · rw [List.dropWhile_cons, if_neg ha] at h
      exact absurd h (by simp)

theorem dropWhile_nil_of_all (p : Char → Bool) (l : List Char)
    (h : ∀ c ∈ l, p c = true) : l.dropWhile p = [] := by
  induction l with
  | nil => rfl
  | cons a l ih =>
    rw [List.dropWhile_cons, if_pos (h a (List.mem_cons_self _ _))]
    exact ih (fun c hc => h c (List.mem_cons_of_mem _ hc))

theorem dropWhile_head_false (p : Char → Bool) (l : List Char) :
    ∀ d ds, l.dropWhile p = d :: ds → p d = false := by
  induction l with
  | nil => intro d ds h; simp at h
  | cons a l ih =>
    intro d ds h
    by_cases ha : p a
    · rw [List.dropWhile_cons, if_pos ha] at h
      exact ih d ds h
    · rw [List.dropWhile_cons, if_neg ha] at h
      obtain ⟨rfl, -⟩ := List.cons.inj h
      exact Bool.eq_false_iff.mpr ha

theorem pyStrip_eq_nil_iff (s : List Char) :
    pyStrip s = [] ↔ ∀ c ∈ s, isSpacePy c = true := by
  constructor
  · intro h
    unfold pyStrip pyRStrip pyLStrip at h
    have h1 : (s.dropWhile isSpacePy).reverse.dropWhile isSpacePy = [] := by
      have := congrArg List.reverse h
      simpa using this
    have h2 : ∀ c ∈ (s.dropWhile isSpacePy).reverse, isSpacePy c = true :=
      all_of_dropWhile_nil _ _ h1
    have h3 : s.dropWhile isSpacePy = [] := by
      cases hd : s.dropWhile isSpacePy with
      | nil => rfl
      | cons d ds =>
        have hdw : isSpacePy d = false := dropWhile_head_false _ _ d ds hd
        have : isSpacePy d = true := by
          apply h2
          rw [hd]
          simp
        rw [this] at hdw
        exact absurd hdw (by simp)
    intro c hc
    have hsplit : s.takeWhile isSpacePy ++ s.dropWhile isSpacePy = s :=
      List.takeWhile_append_dropWhile _ _
    rw [← hsplit] at hc
    rcases List.mem_append.mp hc with h4 | h4
    · exact all_takeWhile _ _ c h4
    · rw [h3] at h4
      simp at h4
  · intro h
    unfold pyStrip pyRStrip pyLStrip
    rw [dropWhile_nil_of_all _ _ h]
    rfl

theorem pyStrip_take_nil (s : List Char) (n : Nat) (h : pyStrip s = []) :
    pyStrip (s.take n) = [] := by
  rw [pyStrip_eq_nil_iff] at h ⊢
  exact fun c hc => h c (List.take_subset _ _ hc)

theorem extrai_secao_formacao_ph (bloco : List Char)
    (h : searchPat FORMACAO_PAT bloco = none) :
    (extrai_secao bloco).formacao = PLACEHOLDER_FORMACAO := by
  unfold extrai_secao
  cases hr : searchPat RECEBIMENTO_PAT bloco <;> simp [h, hr]

theorem extrai_secao_recebimento_ph (bloco : List Char)
    (h : searchPat RECEBIMENTO_PAT bloco = none) :
    (extrai_secao bloco).recebimento = PLACEHOLDER_RECEBIMENTO := by
  unfold extrai_secao
  cases hf : searchPat FORMACAO_PAT bloco <;> simp [h, hf]

theorem extrai_secao_cadastro_ph (bloco : List Char)
    (h : pyStrip bloco = []) :
    (extrai_secao bloco).cadastro = PLACEHOLDER_CADASTRO := by
  unfold extrai_secao
  rcases hf : searchPat FORMACAO_PAT bloco with _ | f <;>
    rcases hr : searchPat RECEBIMENTO_PAT bloco with _ | r
  · simp [h]
  · simp [h, pyStrip_take_nil bloco _ h]
  · simp [h, pyStrip_take_nil bloco _ h]
  · by_cases hlt : f < r
    · simp [hlt, h, pyStrip_take_nil bloco _ h]
    · simp [hlt, h, pyStrip_take_nil bloco _ h]

theorem isDigitCh_ofNat48 (k : Nat) (h : k < 10) :
    isDigitCh (Char.ofNat (48 + k)) = true := by
  interval_cases k <;> decide

theorem natDigitsGo_chars : ∀ (fuel n : Nat) (acc : List Char) (c : Char),
    c ∈ natDigitsGo fuel n acc → isDigitCh c = true ∨ c ∈ acc := by
  intro fuel
  induction fuel with
  | zero => intro n acc c hc; exact Or.inr hc
  | succ fuel ih =>
    intro n acc c hc
    simp only [natDigitsGo] at hc
    split_ifs at hc with h
    · rcases List.mem_cons.mp hc with rfl | hmem
      · exact Or.inl (isDigitCh_ofNat48 n h)
      · exact Or.inr hmem
    · rcases ih (n / 10) (Char.ofNat (48 + n % 10) :: acc) c hc with hd | hmem
      · exact Or.inl hd
      · rcases List.mem_cons.mp hmem with rfl | hmem2
        · exact Or.inl (isDigitCh_ofNat48 _ (Nat.mod_lt _ (by omega)))
        · exact Or.inr hmem2

theorem padNum_chars (w n : Nat) (c : Char) (hc : c ∈ padNum w n) :
    isDigitCh c = true := by
  unfold padNum at hc
  rcases List.mem_append.mp hc with h | h
  · rw [List.eq_of_mem_replicate h]
    decide
  · unfold natDigits at h
    rcases natDigitsGo_chars _ _ _ _ h with hd | hmem
    · exact hd
    · simp at hmem

theorem normalizar_data_chars (d m y : Nat) (v : List Char)
    (h : normalizar_data d m y = some v) :
    ∀ c ∈ v, isDigitCh c = true ∨ c = '-' := by
  unfold normalizar_data at h
  by_cases hcond : 1 ≤ m ∧ m ≤ 12 ∧ 1 ≤ d ∧ d ≤ 31
  · rw [if_pos hcond] at h
    obtain rfl := Option.some.inj h
    intro c hc
    rcases List.mem_append.mp hc with h1 | h2
    · exact Or.inl (padNum_chars _ _ _ h1)
    · rcases List.mem_cons.mp h2 with rfl | h3
      · exact Or.inr rfl
      · rcases List.mem_append.mp h3 with h4 | h5
        · exact Or.inl (padNum_chars _ _ _ h4)
        · rcases List.mem_cons.mp h5 with rfl | h6
          · exact Or.inr rfl
          · exact Or.inl (padNum_chars _ _ _ h6)
  · rw [if_neg hcond] at h
    exact absurd h (by simp)

theorem rxResult_chars (rx : Option Char → List Char → Option (Nat × Nat × Nat))
    (after v : List Char) (h : rxResult rx after = some v) :
    ∀ c ∈ v, isDigitCh c = true ∨ c = '-' := by
  unfold rxResult at h
  cases hs : searchDate rx after with
  | none => rw [hs] at h; exact absurd h (by simp)
  | some g =>
    rw [hs] at h
    obtain ⟨d, m, y⟩ := g
    exact normalizar_data_chars d m y v h

theorem cascadeDatas_chars (after v : List Char)
    (h : cascadeDatas after = some v) :
    ∀ c ∈ v, isDigitCh c = true ∨ c = '-' := by
  unfold cascadeDatas at h
  cases h1 : rxResult rx1At after with
  | some iso =>
    rw [h1] at h
    obtain rfl := Option.some.inj h
    exact rxResult_chars _ _ _ h1
  | none =>
    rw [h1] at h
    cases h2 : rxResult rx2At after with
    | some iso =>
      rw [h2] at h
      obtain rfl := Option.some.inj h
      exact rxResult_chars _ _ _ h2
    | none =>
      rw [h2] at h
      exact rxResult_chars _ _ _ h

theorem fallbackDigits_chars (after v : List Char)
    (h : fallbackDigits after = some v) :
    ∀ c ∈ v, isDigitCh c = true ∨ c = '-' := by
  unfold fallbackDigits at h
  split_ifs at h with h1 h2
  · exact normalizar_data_chars _ _ _ _ h
  · exact normalizar_data_chars _ _ _ _ h

theorem encontrarDataLines_chars : ∀ (ls : List (List Char)) (v : List Char),
    encontrarDataLines ls = some v →
    ∀ c ∈ v, isDigitCh c = true ∨ c = '-' := by
  intro ls
  induction ls with
  | nil => intro v h; exact absurd h (by simp [encontrarDataLines])
  | cons raw rest ih =>
    intro v h
    simp only [encontrarDataLines] at h
    split_ifs at h with h1 h2
    · exact ih v h
    · exact ih v h
    · cases hc : cascadeDatas
          ((extrair_valor_pos_label (pyStrip raw)).getD (pyStrip raw)) with
      | some iso =>
        rw [hc] at h
        obtain rfl := Option.some.inj h
        exact cascadeDatas_chars _ _ hc
      | none =>
        rw [hc] at h
        exact fallbackDigits_chars _ _ h

theorem encontrar_data_ne_ph (cad v : List Char)
    (h : encontrar_data_nascimento cad = some v) :
    v ≠ PLACEHOLDER_DT_NASC := by
  intro hv
  have hD : 'D' ∈ v := by rw [hv]; decide
  rcases encontrarDataLines_chars _ v h 'D' hD with h1 | h1
  · exact absurd h1 (by decide)
  · exact absurd h1 (by decide)

theorem encontrar_cns_ne_ph (cad v : List Char)
    (h : encontrar_cns_em_bloco cad = some v) :
    v ≠ PLACEHOLDER_CNS := by
  intro hv
  have := (encontrarCnsLines_wf _ v h).1
  rw [hv] at this
  exact absurd this (by decide)

/-! ## Claim C1: schema completeness of the assembled record -/

/-- C1: every assembled record carries every declared field key, in source
order; every single-valued field whose extractor found nothing holds its
fixed placeholder string; every multi-valued field whose extraction found
nothing holds the empty sequence. -/
theorem C1_esquema_completo (bloco : List Char) :
    (blocoItems (montarBloco bloco)).map Prod.fst = declaredKeys ∧
    ((encontrar_nome_profissional (extrai_secao bloco).cadastro = none →
      (blocoItems (montarBloco bloco)).lookup "nome" =
        some (.s PLACEHOLDER_NOME)) ∧
     (encontrar_cpf_em_bloco (extrai_secao bloco).cadastro = none →
      (blocoItems (montarBloco bloco)).lookup "cpf" =
        some (.s PLACEHOLDER_CPF)) ∧
     (encontrar_cns_em_bloco (extrai_secao bloco).cadastro = none →
      (blocoItems (montarBloco bloco)).lookup "cns" =
        some (.s PLACEHOLDER_CNS)) ∧
     (encontrar_nome_mae (extrai_secao bloco).cadastro = none →
      (blocoItems (montarBloco bloco)).lookup "nome_mae" =
        some (.s PLACEHOLDER_MAE)) ∧
     (encontrar_nome_pai (extrai_secao bloco).cadastro = none →
      (blocoItems (montarBloco bloco)).lookup "nome_pai" =
        some (.s PLACEHOLDER_PAI)) ∧
     (encontrar_data_nascimento (extrai_secao bloco).cadastro = none →
      (blocoItems (montarBloco bloco)).lookup "data_nascimento" =
        some (.s PLACEHOLDER_DT_NASC)) ∧
     (searchPat FORMACAO_PAT bloco = none →
      (blocoItems (montarBloco bloco)).lookup "formacao" =
        some (.s PLACEHOLDER_FORMACAO)) ∧
     (searchPat RECEBIMENTO_PAT bloco = none →
      (blocoItems (montarBloco bloco)).lookup "recebimento" =
        some (.s PLACEHOLDER_RECEBIMENTO)) ∧
     (pyStrip bloco = [] →
      (blocoItems (montarBloco bloco)).lookup "cadastro" =
        some (.s PLACEHOLDER_CADASTRO))) ∧
    (((extrair_informacoes_rg_ci (extrai_secao bloco).cadastro).rg = [] →
      (blocoItems (montarBloco bloco)).lookup "rg" = some (.l [])) ∧
     ((extrair_informacoes_rg_ci (extrai_secao bloco).cadastro).uf_ci = [] →
      (blocoItems (montarBloco bloco)).lookup "uf_ci" = some (.l [])) ∧
     ((extrair_informacoes_rg_ci
        (extrai_secao bloco).cadastro).orgao_emissor_ci = [] →
      (blocoItems (montarBloco bloco)).lookup "orgao_emissor_ci" =
        some (.l [])) ∧
     ((extrair_informacoes_rg_ci
        (extrai_secao bloco).cadastro).data_emissao_ci = [] →
      (blocoItems (montarBloco bloco)).lookup "data_emissao_ci" =
        some (.l [])) ∧
     ((extrair_informacoes_rg_ci
        (extrai_secao bloco).cadastro).endereco_nascimento = [] →
      (blocoItems (montarBloco bloco)).lookup "endereco_nascimento" =
        some (.l [])) ∧
     (extract_estado_civil (extrai_secao bloco).cadastro = [] →
      (blocoItems (montarBloco bloco)).lookup "estado_civil" =
        some (.l [])) ∧
     ((extract_address_email_contacts
        (extrai_secao bloco).cadastro).endereco = [] →
      (blocoItems (montarBloco bloco)).lookup "endereco" = some (.l [])) ∧
     ((extract_address_email_contacts (extrai_secao bloco).cadastro).crm = [] →
      (blocoItems (montarBloco bloco)).lookup "crm" = some (.l [])) ∧
     ((extract_address_email_contacts
        (extrai_secao bloco).cadastro).email = [] →
      (blocoItems (montarBloco bloco)).lookup "email" = some (.l [])) ∧
     ((extract_address_email_contacts
        (extrai_secao bloco).cadastro).telefone = [] →
      (blocoItems (montarBloco bloco)).lookup "telefone" = some (.l [])) ∧
     ((extract_address_email_contacts
        (extrai_secao bloco).cadastro).telefone_emergencia = [] →
      (blocoItems (montarBloco bloco)).lookup "telefone_emergencia" =
        some (.l [])) ∧
     ((extract_address_email_contacts
        (extrai_secao bloco).cadastro).tipo_contato_emergencia = [] →
      (blocoItems (montarBloco bloco)).lookup "tipo_contato_emergencia" =
        some (.l [])) ∧
     ((extract_address_email_contacts
        (extrai_secao bloco).cadastro).carga_horaria_semanal = [] →
      (blocoItems (montarBloco bloco)).lookup "carga_horaria_semanal" =
        some (.l []))) := by
  refine ⟨rfl,
    ⟨?_, ?_, ?_, ?_, ?_, ?_, ?_, ?_, ?_⟩,
    ⟨?_, ?_, ?_, ?_, ?_, ?_, ?_, ?_, ?_, ?_, ?_, ?_, ?_⟩⟩
  · intro h; simp [montarBloco, blocoItems, List.lookup, h]
  · intro h; simp [montarBloco, blocoItems, List.lookup, h]
  · intro h; simp [montarBloco, blocoItems, List.lookup, h]
  · intro h; simp [montarBloco, blocoItems, List.lookup, h]
  · intro h; simp [montarBloco, blocoItems, List.lookup, h]
  · intro h; simp [montarBloco, blocoItems, List.lookup, h]
  · intro h
    simp [montarBloco, blocoItems, List.lookup, extrai_secao_formacao_ph bloco h]
  · intro h
    simp [montarBloco, blocoItems, List.lookup,
      extrai_secao_recebimento_ph bloco h]
  · intro h
    simp [montarBloco, blocoItems, List.lookup, extrai_secao_cadastro_ph bloco h]
  · intro h
    by_cases hcad : (extrai_secao bloco).cadastro.isEmpty <;>
      simp [montarBloco, blocoItems, List.lookup, h, hcad]
  · intro h
    by_cases hcad : (extrai_secao bloco).cadastro.isEmpty <;>
      simp [montarBloco, blocoItems, List.lookup, h, hcad]
  · intro h
    by_cases hcad : (extrai_secao bloco).cadastro.isEmpty <;>
      simp [montarBloco, blocoItems, List.lookup, h, hcad]
  · intro h
    by_cases hcad : (extrai_secao bloco).cadastro.isEmpty <;>
      simp [montarBloco, blocoItems, List.lookup, h, hcad]
  · intro h
    by_cases hcad : (extrai_secao bloco).cadastro.isEmpty <;>
      simp [montarBloco, blocoItems, List.lookup, h, hcad]
  · intro h; simp [montarBloco, blocoItems, List.lookup, h]
  · intro h
    by_cases hcad : (extrai_secao bloco).cadastro.isEmpty <;>
      simp [montarBloco, blocoItems, List.lookup, h, hcad]
  · intro h
    by_cases hcad : (extrai_secao bloco).cadastro.isEmpty <;>
      simp [montarBloco, blocoItems, List.lookup, h, hcad]
  · intro h
    by_cases hcad : (extrai_secao bloco).cadastro.isEmpty <;>
      simp [montarBloco, blocoItems, List.lookup, h, hcad]
  · intro h
    by_cases hcad : (extrai_secao bloco).cadastro.isEmpty <;>
      simp [montarBloco, blocoItems, List.lookup, h, hcad]
  · intro h
    by_cases hcad : (extrai_secao bloco).cadastro.isEmpty <;>
      simp [montarBloco, blocoItems, List.lookup, h, hcad]
  · intro h
    by_cases hcad : (extrai_secao bloco).cadastro.isEmpty <;>
      simp [montarBloco, blocoItems, List.lookup, h, hcad]
  · intro h
    by_cases hcad : (extrai_secao bloco).cadastro.isEmpty <;>
      simp [montarBloco, blocoItems, List.lookup, h, hcad]

/-- Witness: C1 applied to the one-character block `"x"`, on which every
extractor fails. -/
theorem C1_witness :
    (blocoItems (montarBloco ("x".data))).lookup "cpf" =
      some (.s PLACEHOLDER_CPF) ∧
    (blocoItems (montarBloco ("x".data))).lookup "rg" = some (.l []) := by
  have h := C1_esquema_completo ("x".data)
  exact ⟨h.2.1.2.1 (by decide), h.2.2.1 (by decide)⟩

/-! ## Claim C8: audit registries -/

theorem processarBlocos_cns (blocos : List (List Char)) :
    (processarBlocos blocos).cns_nao_identificados =
      blocos.filterMap (fun b =>
        if encontrar_cns_em_bloco (extrai_secao b).cadastro = none then
          some { nome := (encontrar_nome_profissional
                  (extrai_secao b).cadastro).getD PLACEHOLDER_NOME,
                 cpf := (encontrar_cpf_em_bloco
                  (extrai_secao b).cadastro).getD PLACEHOLDER_CPF }
        else none) := by
  induction blocos with
  | nil => rfl
  | cons b rest ih =>
    simp only [processarBlocos, List.filterMap_cons]
    rw [ih]
    cases hc : encontrar_cns_em_bloco (extrai_secao b).cadastro with
    | none => simp [hc]
    | some v =>
      have hne := encontrar_cns_ne_ph _ _ hc
      simp [hc, hne]

theorem processarBlocos_mae (blocos : List (List Char)) :
    (processarBlocos blocos).mae_nao_identificados =
      blocos.filterMap (fun b =>
        if encontrar_nome_mae (extrai_secao b).cadastro = none then
          some { cpf := (encontrar_cpf_em_bloco
                  (extrai_secao b).cadastro).getD PLACEHOLDER_CPF }
        else none) := by
  induction blocos with
  | nil => rfl
  | cons b rest ih =>
    simp only [processarBlocos, List.filterMap_cons]
    rw [ih]
    by_cases hm : encontrar_nome_mae (extrai_secao b).cadastro = none <;>
      simp [hm]

theorem processarBlocos_pai (blocos : List (List Char)) :
    (processarBlocos blocos).pai_nao_identificados =
      blocos.filterMap (fun b =>
        if encontrar_nome_pai (extrai_secao b).cadastro = none then
          some { cpf := (encontrar_cpf_em_bloco
                  (extrai_secao b).cadastro).getD PLACEHOLDER_CPF }
        else none) := by
  induction blocos with
  | nil => rfl
  | cons b rest ih =>
    simp only [processarBlocos, List.filterMap_cons]
    rw [ih]
    by_cases hm : encontrar_nome_pai (extrai_secao b).cadastro = none <;>
      simp [hm]

theorem processarBlocos_dt (blocos : List (List Char)) :
    (processarBlocos blocos).data_nascimento_nao_identificados =
      blocos.filterMap (fun b =>
        if encontrar_data_nascimento (extrai_secao b).cadastro = none then
          some { cpf := (encontrar_cpf_em_bloco
                  (extrai_secao b).cadastro).getD PLACEHOLDER_CPF }
        else none) := by
  induction blocos with
  | nil => rfl
  | cons b rest ih =>
    simp only [processarBlocos, List.filterMap_cons]
    rw [ih]
    by_cases hm : encontrar_data_nascimento (extrai_secao b).cadastro = none <;>
      simp [hm]

theorem processarBlocos_dt_count (blocos : List (List Char)) :
    (processarBlocos blocos).data_nascimento_nao_identificados.length =
      ((processarBlocos blocos).blocos.filter
        (fun d => d.data_nascimento = PLACEHOLDER_DT_NASC)).length := by
  induction blocos with
  | nil => rfl
  | cons b rest ih =>
    simp only [processarBlocos, List.filter_cons]
    cases hd : encontrar_data_nascimento (extrai_secao b).cadastro with
    | none =>
      have hfield : (montarBloco b).data_nascimento = PLACEHOLDER_DT_NASC := by
        simp [montarBloco, hd]
      simp [hd, hfield, ih]
    | some v =>
      have hfield : (montarBloco b).data_nascimento = v := by
        simp [montarBloco, hd]
      have hne := encontrar_data_ne_ph _ _ hd
      simp [hd, hfield, hne, ih]

theorem processarBlocos_cns_count (blocos : List (List Char)) :
    (processarBlocos blocos).cns_nao_identificados.length =
      ((processarBlocos blocos).blocos.filter
        (fun d => d.cns = PLACEHOLDER_CNS)).length := by
  induction blocos with
  | nil => rfl
  | cons b rest ih =>
    simp only [processarBlocos, List.filter_cons]
    cases hc : encontrar_cns_em_bloco (extrai_secao b).cadastro with
    | none =>
      have hfield : (montarBloco b).cns = PLACEHOLDER_CNS := by
        simp [montarBloco, hc]
      simp [hc, hfield, ih]
    | some v =>
      have hfield : (montarBloco b).cns = v := by
        simp [montarBloco, hc]
      have hne := encontrar_cns_ne_ph _ _ hc
      simp [hc, hfield, hne, ih]

/-- C8: each audit registry is exactly the in-order selection of the blocks
whose corresponding extractor returned nothing (with the identity number,
and for the health-card registry also the name, defaulted as in the
records); in particular the birth-date registry has exactly as many entries
as there are records whose birth-date field is the placeholder, and
likewise for the health-card registry. -/
theorem C8_auditoria (blocos : List (List Char)) :
    (processarBlocos blocos).cns_nao_identificados =
      blocos.filterMap (fun b =>
        if encontrar_cns_em_bloco (extrai_secao b).cadastro = none then
          some { nome := (encontrar_nome_profissional
                  (extrai_secao b).cadastro).getD PLACEHOLDER_NOME,
                 cpf := (encontrar_cpf_em_bloco
                  (extrai_secao b).cadastro).getD PLACEHOLDER_CPF }
        else none) ∧
    (processarBlocos blocos).mae_nao_identificados =
      blocos.filterMap (fun b =>
        if encontrar_nome_mae (extrai_secao b).cadastro = none then
          some { cpf := (encontrar_cpf_em_bloco
                  (extrai_secao b).cadastro).getD PLACEHOLDER_CPF }
        else none) ∧
    (processarBlocos blocos).pai_nao_identificados =
      blocos.filterMap (fun b =>
        if encontrar_nome_pai (extrai_secao b).cadastro = none then
          some { cpf := (encontrar_cpf_em_bloco
                  (extrai_secao b).cadastro).getD PLACEHOLDER_CPF }
        else none) ∧
    (processarBlocos blocos).data_nascimento_nao_identificados =
      blocos.filterMap (fun b =>
        if encontrar_data_nascimento (extrai_secao b).cadastro = none then
          some { cpf := (encontrar_cpf_em_bloco
                  (extrai_secao b).cadastro).getD PLACEHOLDER_CPF }
        else none) ∧
    (processarBlocos blocos).data_nascimento_nao_identificados.length =
      ((processarBlocos blocos).blocos.filter
        (fun d => d.data_nascimento = PLACEHOLDER_DT_NASC)).length ∧
    (processarBlocos blocos).cns_nao_identificados.length =
      ((processarBlocos blocos).blocos.filter
        (fun d => d.cns = PLACEHOLDER_CNS)).length :=
  ⟨processarBlocos_cns blocos, processarBlocos_mae blocos,
   processarBlocos_pai blocos, processarBlocos_dt blocos,
   processarBlocos_dt_count blocos, processarBlocos_cns_count blocos⟩

/-! ## Claim C10: missing input corpus -/

/-- C10: with the normalized input file absent the function returns only the
empty block list — none of the four audit-registry keys is present — while
every successful run returns the uniform five-key shape in insertion
order. -/
theorem C10_entrada_ausente :
    (processar_documentos_medicos none).map Prod.fst = ["blocos"] ∧
    (processar_documentos_medicos none).lookup "blocos" =
      some (.registros []) ∧
    (processar_documentos_medicos none).lookup "cns_nao_identificados" =
      none ∧
    (processar_documentos_medicos none).lookup "mae_nao_identificados" =
      none ∧
    (processar_documentos_medicos none).lookup "pai_nao_identificados" =
      none ∧
    (processar_documentos_medicos
      none).lookup "data_nascimento_nao_identificados" = none ∧
    ∀ c : List Char, (processar_documentos_medicos (some c)).map Prod.fst =
      ["blocos", "cns_nao_identificados", "mae_nao_identificados",
       "pai_nao_identificados", "data_nascimento_nao_identificados"] := by
  refine ⟨rfl, by decide, by decide, by decide, by decide, by decide,
    fun c => rfl⟩
